import Mathlib

/-!
# Verification of the King_bot_2030 chart-analysis engine

Shallow embedding of the core analysis pipeline of `src/js/analysis.js`
(the first, v7.0 revision of the engine, lines 1-1756 of the file; the
repository concatenates several revisions and all verified claims point
into the first one).

Modelling conventions:
* JS numbers are modelled as `ℚ` (the decision logic only adds, multiplies,
  divides and compares; no float rounding is load-bearing for the claims).
* Pixel coordinates and counts are `ℕ`.
* `Math.round x` is `⌊x + 1/2⌋` (`jsRound`), exactly JS round-half-up.
* JS `null` becomes `Option.none`; JS truthiness of a number (`null` and `0`
  are falsy) is `jsTruthyNum`.
* Signal values keep their JS string spelling ("BUY" / "SELL" / "HOLD" /
  "WAIT").
* `Math.sqrt` (used only by `calculateVolatility`) has no exact rational
  counterpart; it is threaded through as an explicit function parameter
  `sqrtFn`, so every theorem holds for any fixed interpretation of it.
* Human-readable display strings built from template literals (the `text`
  field of summary entries) are presentation-only and are not modelled;
  each summary entry keeps its `type` and numeric `impact`.
-/

namespace KingBot

/-- JS `Math.round`: round half toward positive infinity, `⌊x + 1/2⌋`. -/
def jsRound (q : ℚ) : ℤ := ⌊q + 1/2⌋

/-- JS truthiness of a possibly-null number: `null`, `0` (and `NaN`, which
cannot arise in our rational model) are falsy. -/
def jsTruthyNum : Option ℚ → Bool
  | none => false
  | some q => decide (q ≠ 0)

/-- JS `a || d` for an optional numeric lookup result `a`
(`undefined` and `0` fall through to the default). -/
def jsOrNum (o : Option ℚ) (d : ℚ) : ℚ :=
  match o with
  | none => d
  | some q => if q = 0 then d else q

/-- JS `Math.max(...xs)` on a list known to be nonempty at every call site
(`Math.max()` of an empty spread would be `-Infinity`; unreachable here). -/
def listMax : List ℚ → ℚ
  | [] => 0
  | x :: xs => xs.foldl max x

/-- JS `Math.min(...xs)` on a list known to be nonempty at every call site. -/
def listMin : List ℚ → ℚ
  | [] => 0
  | x :: xs => xs.foldl min x

/-- One reconstructed candle (the object built by
`analyzeProfessionalCandlesticks`).  Field `open` of the source is spelled
`openP` because `open` is a Lean keyword. -/
structure Candle where
  xStart : ℕ
  xEnd : ℕ
  high : ℚ
  low : ℚ
  totalHeight : ℚ
  bodyTop : ℚ
  bodyBottom : ℚ
  openP : ℚ
  close : ℚ
  bodyHeight : ℚ
  upperWick : ℚ
  lowerWick : ℚ
  bodyRatio : ℚ
  upperWickRatio : ℚ
  lowerWickRatio : ℚ
  isGreen : Bool
  isRed : Bool
deriving DecidableEq, Repr

/-- Placeholder candle used to model JS array indexing that is guarded by a
length check in the source (never actually read). -/
def defCandle : Candle :=
  { xStart := 0, xEnd := 0, high := 0, low := 0, totalHeight := 0,
    bodyTop := 0, bodyBottom := 0, openP := 0, close := 0, bodyHeight := 0,
    upperWick := 0, lowerWick := 0, bodyRatio := 0, upperWickRatio := 0,
    lowerWickRatio := 0, isGreen := false, isRed := false }

/-- A detected candlestick pattern. -/
structure Pattern where
  name : String
  signal : String
  strength : ℚ
  description : String
deriving DecidableEq, Repr

/-- `config.candles.dojiBodyRatio = 0.05`; helper `isDoji` of
`detectAllCandlestickPatterns`. -/
def isDoji (c : Candle) : Bool :=
  decide (c.bodyRatio < 1/20)

/-- Helper `hasLongUpperWick` (`config.candles.wickRatio = 2.5`). -/
def hasLongUpperWick (c : Candle) : Bool :=
  decide (c.upperWickRatio > c.lowerWickRatio * (5/2))

/-- Helper `hasLongLowerWick`. -/
def hasLongLowerWick (c : Candle) : Bool :=
  decide (c.lowerWickRatio > c.upperWickRatio * (5/2))

/-- `detectAllCandlestickPatterns` (src/js/analysis.js:315-602).
Returns every matched 1/2/3-candle formation over the three most recent
candles, sorted by descending strength.  Note the guard: fewer than three
candles yield the empty list. -/
def detectAllCandlestickPatterns (candles : List Candle) : List Pattern :=
  if candles.length < 3 then [] else
  let len := candles.length
  let c0 := candles.getD (len - 1) defCandle
  let c1 := candles.getD (len - 2) defCandle
  let c2 := candles.getD (len - 3) defCandle
  let patterns : List Pattern :=
    -- single-candle patterns
    (if isDoji c0 then
      [⟨"Doji", "HOLD", 7/10,
        "Market Indecision - Equal buying and selling pressure"⟩] else [])
    ++ (if c0.bodyRatio < 3/10 ∧ hasLongLowerWick c0 ∧ c0.lowerWickRatio > 1/2 then
      [⟨"Hammer", "BUY", 9/10,
        "Bullish Reversal - Buyers stepping in at lows"⟩] else [])
    ++ (if c0.bodyRatio < 3/10 ∧ hasLongUpperWick c0 ∧ c0.upperWickRatio > 1/2 then
      [⟨"Inverted Hammer", "BUY", 8/10,
        "Bullish Reversal - Buyers attempting to push prices higher"⟩] else [])
    ++ (if c0.bodyRatio < 3/10 ∧ hasLongUpperWick c0 ∧ c0.upperWickRatio > 1/2 ∧ c0.isRed then
      [⟨"Shooting Star", "SELL", 9/10,
        "Bearish Reversal - Sellers pushing prices down from highs"⟩] else [])
    ++ (if c0.bodyRatio < 3/10 ∧ hasLongLowerWick c0 ∧ c0.lowerWickRatio > 1/2 ∧ c0.isRed then
      [⟨"Hanging Man", "SELL", 8/10,
        "Bearish Reversal - Potential selling climax"⟩] else [])
    ++ (if c0.bodyRatio > 7/10 ∧ c0.isGreen then
      [⟨"Bullish Marubozu", "BUY", 8/10,
        "Strong Bullish Trend - Continuous buying pressure"⟩] else [])
    ++ (if c0.bodyRatio > 7/10 ∧ c0.isRed then
      [⟨"Bearish Marubozu", "SELL", 8/10,
        "Strong Bearish Trend - Continuous selling pressure"⟩] else [])
    -- two-candle patterns
    ++ (if c0.isGreen ∧ c1.isRed ∧ c0.close > c1.openP ∧ c0.openP < c1.close ∧
          c0.bodyHeight > c1.bodyHeight then
      [⟨"Bullish Engulfing", "BUY", 19/20,
        "Strong Bullish Reversal - Buyers overpower sellers"⟩] else [])
    ++ (if c0.isRed ∧ c1.isGreen ∧ c0.close < c1.openP ∧ c0.openP > c1.close ∧
          c0.bodyHeight > c1.bodyHeight then
      [⟨"Bearish Engulfing", "SELL", 19/20,
        "Strong Bearish Reversal - Sellers overpower buyers"⟩] else [])
    ++ (if c1.isRed ∧ c0.isGreen ∧ c0.openP > c1.close ∧ c0.close < c1.openP then
      [⟨"Bullish Harami", "BUY", 3/4,
        "Bullish Reversal - Decreasing selling pressure"⟩] else [])
    ++ (if c1.isGreen ∧ c0.isRed ∧ c0.openP < c1.close ∧ c0.close > c1.openP then
      [⟨"Bearish Harami", "SELL", 3/4,
        "Bearish Reversal - Decreasing buying pressure"⟩] else [])
    ++ (if c1.isRed ∧ c0.isGreen ∧ c0.openP < c1.low ∧
          c0.close > (c1.openP + c1.close) / 2 then
      [⟨"Piercing Line", "BUY", 17/20,
        "Bullish Reversal - Buyers entering after selling pressure"⟩] else [])
    ++ (if c1.isGreen ∧ c0.isRed ∧ c0.openP > c1.high ∧
          c0.close < (c1.openP + c1.close) / 2 then
      [⟨"Dark Cloud Cover", "SELL", 17/20,
        "Bearish Reversal - Sellers entering after buying pressure"⟩] else [])
    ++ (if |c1.high - c0.high| < (c1.high - c1.low) * (1/100) ∧ c1.isGreen ∧ c0.isRed then
      [⟨"Tweezer Top", "SELL", 7/10,
        "Bearish Reversal - Failed attempt to move higher"⟩] else [])
    ++ (if |c1.low - c0.low| < (c1.high - c1.low) * (1/100) ∧ c1.isRed ∧ c0.isGreen then
      [⟨"Tweezer Bottom", "BUY", 7/10,
        "Bullish Reversal - Failed attempt to move lower"⟩] else [])
    -- three-candle patterns
    ++ (if c2.isRed ∧ isDoji c1 ∧ c0.isGreen ∧ c0.close > c2.openP then
      [⟨"Morning Star", "BUY", 49/50,
        "Powerful Bullish Reversal - Trend change confirmed"⟩] else [])
    ++ (if c2.isGreen ∧ isDoji c1 ∧ c0.isRed ∧ c0.close < c2.openP then
      [⟨"Evening Star", "SELL", 49/50,
        "Powerful Bearish Reversal - Trend change confirmed"⟩] else [])
    ++ (if c2.isGreen ∧ c1.isGreen ∧ c0.isGreen ∧
          c1.close > c2.close ∧ c0.close > c1.close ∧
          c1.openP > c2.openP ∧ c0.openP > c1.openP then
      [⟨"Three White Soldiers", "BUY", 9/10,
        "Strong Bullish Trend - Continuous upward momentum"⟩] else [])
    ++ (if c2.isRed ∧ c1.isRed ∧ c0.isRed ∧
          c1.close < c2.close ∧ c0.close < c1.close ∧
          c1.openP < c2.openP ∧ c0.openP < c1.openP then
      [⟨"Three Black Crows", "SELL", 9/10,
        "Strong Bearish Trend - Continuous downward momentum"⟩] else [])
    ++ (if c2.isRed ∧ c1.isGreen ∧ c1.openP > c2.close ∧ c1.close < c2.openP ∧
          c0.isGreen ∧ c0.close > c1.close then
      [⟨"Three Inside Up", "BUY", 4/5,
        "Bullish Continuation - Strengthening bullish trend"⟩] else [])
    ++ (if c2.isGreen ∧ c1.isRed ∧ c1.openP < c2.close ∧ c1.close > c2.openP ∧
          c0.isRed ∧ c0.close < c1.close then
      [⟨"Three Inside Down", "SELL", 4/5,
        "Bearish Continuation - Strengthening bearish trend"⟩] else [])
    ++ (if c2.isGreen ∧ c1.isRed ∧ c0.isGreen ∧
          c1.openP < c2.close ∧ c1.close > c0.openP ∧
          c1.bodyHeight < min c2.bodyHeight c0.bodyHeight then
      [⟨"Rising Three Methods", "BUY", 17/20,
        "Bullish Continuation - Brief consolidation before continuation"⟩] else [])
    ++ (if c2.isRed ∧ c1.isGreen ∧ c0.isRed ∧
          c1.openP > c2.close ∧ c1.close < c0.openP ∧
          c1.bodyHeight < min c2.bodyHeight c0.bodyHeight then
      [⟨"Falling Three Methods", "SELL", 17/20,
        "Bearish Continuation - Brief consolidation before continuation"⟩] else [])
    -- gap analysis
    ++ (if c0.low > c1.high then
      [⟨"Gap Up", "BUY", 7/10,
        "Bullish Signal - Strong buying interest"⟩] else [])
    ++ (if c0.high < c1.low then
      [⟨"Gap Down", "SELL", 7/10,
        "Bearish Signal - Strong selling interest"⟩] else [])
  patterns.mergeSort (fun a b => decide (b.strength ≤ a.strength))

/-! ## Quantitative helper indicators (src/js/analysis.js:1161-1247) -/

/-- `calculateSMA` (analysis.js:1162-1168): `null` when too few candles. -/
def calculateSMA (candles : List Candle) (period : ℕ) : Option ℚ :=
  if candles.length < period then none
  else some (((candles.drop (candles.length - period)).map (·.close)).sum / (period : ℚ))

/-- `calculateEMA` (analysis.js:1170-1181): seeds with the first close and
folds over the whole series.  `null` when too few candles; the source never
calls it on an empty list with `period = 0` (guard catches everything else). -/
def calculateEMA (candles : List Candle) (period : ℕ) : Option ℚ :=
  if candles.length < period then none
  else
    match candles with
    | [] => none
    | c :: rest =>
      let k : ℚ := 2 / ((period : ℚ) + 1)
      some (rest.foldl (fun ema x => x.close * k + ema * (1 - k)) c.close)

/-- The gain/loss accumulation loop of `calculateRSI` (analysis.js:1186-1196):
component 1 is the summed gains, component 2 the summed losses over the last
`period` one-step changes. -/
def rsiGainsLosses (candles : List Candle) (period : ℕ) : ℚ × ℚ :=
  (List.range period).foldl
    (fun gl j =>
      let i := candles.length - period + j
      let change := (candles.getD i defCandle).close - (candles.getD (i - 1) defCandle).close
      if change > 0 then (gl.1 + change, gl.2) else (gl.1, gl.2 - change))
    (0, 0)

/-- `calculateRSI` (analysis.js:1183-1204). -/
def calculateRSI (candles : List Candle) (period : ℕ) : ℚ :=
  if candles.length ≤ period then 50
  else
    let gl := rsiGainsLosses candles period
    let avgGain := gl.1 / (period : ℚ)
    let avgLoss := gl.2 / (period : ℚ)
    if avgLoss = 0 then 100
    else
      let rs := avgGain / avgLoss
      100 - (100 / (1 + rs))

/-- `calculateVolatility` (analysis.js:1206-1220): coefficient of variation of
the last `period` closes.  `Math.sqrt` is the explicit parameter `sqrtFn`. -/
def calculateVolatility (sqrtFn : ℚ → ℚ) (candles : List Candle) (period : ℕ) : ℚ :=
  if candles.length ≤ period then 0
  else
    let closes := (candles.drop (candles.length - period)).map (·.close)
    let mean := closes.sum / (closes.length : ℚ)
    let squareDiffs := closes.map (fun v => (v - mean) * (v - mean))
    let avgSquareDiff := squareDiffs.sum / (squareDiffs.length : ℚ)
    let stdDev := sqrtFn avgSquareDiff
    stdDev / mean

/-- `calculateTrendStrength` (analysis.js:1222-1238). -/
def calculateTrendStrength (candles : List Candle) : ℚ :=
  if candles.length < 10 then 0
  else
    let recentCandles := candles.drop (candles.length - 10)
    let ud := (List.range 9).foldl
      (fun ud j =>
        let cur := (recentCandles.getD (j + 1) defCandle).close
        let prev := (recentCandles.getD j defCandle).close
        if cur > prev then (ud.1 + 1, ud.2)
        else if cur < prev then (ud.1, ud.2 + 1)
        else ud)
      ((0 : ℚ), (0 : ℚ))
    (ud.1 - ud.2) / 10

/-- `calculateMomentum` (analysis.js:1240-1247). -/
def calculateMomentum (candles : List Candle) : ℚ :=
  if candles.length < 10 then 0
  else
    let currentPrice := (candles.getD (candles.length - 1) defCandle).close
    let price10DaysAgo := (candles.getD (candles.length - 10) defCandle).close
    (currentPrice - price10DaysAgo) / price10DaysAgo

/-! ## Indicator result records -/

/-- The `indicators` record of `performQuantitativeAnalysis`. -/
structure QuantIndicators where
  rsi : ℚ
  sma9 : Option ℚ
  sma20 : Option ℚ
  sma50 : Option ℚ
  ema9 : Option ℚ
  ema20 : Option ℚ
  ema50 : Option ℚ
  volatility : ℚ
  trendStrength : ℚ
  momentum : ℚ
deriving DecidableEq, Repr

/-- Result of `performQuantitativeAnalysis` (when not `null`). -/
structure QuantResult where
  signal : String
  strength : ℚ
  indicators : QuantIndicators
deriving DecidableEq, Repr

/-- `performQuantitativeAnalysis` (analysis.js:1074-1159).  Returns `null`
(`none`) for fewer than 14 candles.  The source also computes a local
`priceChanges` array that is never used afterwards; it is omitted. -/
def performQuantitativeAnalysis (sqrtFn : ℚ → ℚ) (candles : List Candle) :
    Option QuantResult :=
  if candles.length < 14 then none
  else
    let sma9 := calculateSMA candles 9
    let sma20 := calculateSMA candles 20
    let sma50 := calculateSMA candles 50
    let ema9 := calculateEMA candles 9
    let ema20 := calculateEMA candles 20
    let ema50 := calculateEMA candles 50
    let rsi := calculateRSI candles 14
    let volatility := calculateVolatility sqrtFn candles 14
    let trendStrength := calculateTrendStrength candles
    let momentum := calculateMomentum candles
    -- RSI signal with enhanced thresholds
    let sig0 : String × ℚ :=
      if rsi > 75 then ("SELL", min ((rsi - 75) / 25) 1 * (9/10))
      else if rsi < 25 then ("BUY", min ((25 - rsi) / 25) 1 * (9/10))
      else ("HOLD", 0)
    -- moving-average crossover signal (JS truthiness guards: null or 0 skip)
    let sig1 : String × ℚ :=
      if jsTruthyNum sma9 ∧ jsTruthyNum sma20 ∧ jsTruthyNum sma50 then
        let maDiff := (sma9.getD 0 - sma20.getD 0) / sma20.getD 0
        if maDiff > 5/1000 then
          let newStrength := min (maDiff * 100) 1 * (7/10)
          if newStrength > sig0.2 then ("BUY", newStrength) else sig0
        else if maDiff < -(5/1000) then
          let newStrength := min (|maDiff| * 100) 1 * (7/10)
          if newStrength > sig0.2 then ("SELL", newStrength) else sig0
        else sig0
      else sig0
    -- volatility adjustment
    let sig2 : String × ℚ :=
      if volatility > 3/100 then (sig1.1, sig1.2 * (7/10)) else sig1
    some
      { signal := sig2.1, strength := sig2.2,
        indicators :=
          { rsi := rsi, sma9 := sma9, sma20 := sma20, sma50 := sma50,
            ema9 := ema9, ema20 := ema20, ema50 := ema50,
            volatility := volatility, trendStrength := trendStrength,
            momentum := momentum } }

/-- The `indicators` record of `analyzeMovingAverages`. -/
structure MAIndicators where
  sma9 : Option ℚ
  sma20 : Option ℚ
  sma50 : Option ℚ
  ema9 : Option ℚ
  ema20 : Option ℚ
  ema50 : Option ℚ
deriving DecidableEq, Repr

/-- Result of `analyzeMovingAverages`; the short-series early return carries no
`indicators` key (JS `undefined`), hence the `Option`. -/
structure MAResult where
  signal : String
  strength : ℚ
  indicators : Option MAIndicators
deriving DecidableEq, Repr

/-- `analyzeMovingAverages` (analysis.js:877-939). -/
def analyzeMovingAverages (candles : List Candle) : MAResult :=
  if candles.length < 50 then { signal := "HOLD", strength := 0, indicators := none }
  else
    let sma9 := calculateSMA candles 9
    let sma20 := calculateSMA candles 20
    let sma50 := calculateSMA candles 50
    let ema9 := calculateEMA candles 9
    let ema20 := calculateEMA candles 20
    let ema50 := calculateEMA candles 50
    let sigStr : String × ℚ :=
      if jsTruthyNum sma20 ∧ jsTruthyNum sma50 ∧ jsTruthyNum sma9 then
        -- prevCandles = candles.slice(-2, -1); nonempty iff length ≥ 2
        if ((candles.drop (candles.length - 2)).take 1).length > 0 then
          let prevSma9 := calculateSMA candles.dropLast 9
          let prevSma20 := calculateSMA candles.dropLast 20
          let prevSma50 := calculateSMA candles.dropLast 50
          if jsTruthyNum prevSma20 ∧ jsTruthyNum prevSma50 ∧ jsTruthyNum prevSma9 then
            let s9 := sma9.getD 0
            let s20 := sma20.getD 0
            let s50 := sma50.getD 0
            let p20 := prevSma20.getD 0
            let p50 := prevSma50.getD 0
            if s20 > s50 ∧ p20 ≤ p50 then ("BUY", 17/20)
            else if s20 < s50 ∧ p20 ≥ p50 then ("SELL", 17/20)
            else if s9 > s20 ∧ s20 > s50 then ("BUY", 7/10)
            else if s9 < s20 ∧ s20 < s50 then ("SELL", 7/10)
            else ("HOLD", 0)
          else ("HOLD", 0)
        else ("HOLD", 0)
      else ("HOLD", 0)
    { signal := sigStr.1, strength := sigStr.2,
      indicators := some
        { sma9 := sma9, sma20 := sma20, sma50 := sma50,
          ema9 := ema9, ema20 := ema20, ema50 := ema50 } }

/-- The `indicators` record of `analyzeMACD`. -/
structure MACDIndicators where
  macdLine : ℚ
  signalLine : ℚ
  histogram : ℚ
deriving DecidableEq, Repr

/-- Result of `analyzeMACD`; early returns carry no `indicators` key. -/
structure MACDResult where
  signal : String
  strength : ℚ
  indicators : Option MACDIndicators
deriving DecidableEq, Repr

/-- `analyzeMACD` (analysis.js:942-1020). -/
def analyzeMACD (candles : List Candle) : MACDResult :=
  if candles.length < 26 then { signal := "HOLD", strength := 0, indicators := none }
  else
    let ema12 := calculateEMA candles 12
    let ema26 := calculateEMA candles 26
    -- JS: `if (!ema12 || !ema26) return ...` (null or 0)
    if ¬(jsTruthyNum ema12 ∧ jsTruthyNum ema26) then
      { signal := "HOLD", strength := 0, indicators := none }
    else
      let macdLine := ema12.getD 0 - ema26.getD 0
      -- signal line: mean of up to 9 trailing MACD-line values (unshift loop)
      let macdValues : List ℚ :=
        (List.range (min 9 candles.length)).foldl
          (fun acc i =>
            let slice := candles.take (candles.length - i)
            let e12 := calculateEMA slice 12
            let e26 := calculateEMA slice 26
            if jsTruthyNum e12 ∧ jsTruthyNum e26 then (e12.getD 0 - e26.getD 0) :: acc
            else acc)
          []
      let signalLine :=
        if macdValues.length > 0 then macdValues.sum / (macdValues.length : ℚ) else 0
      let histogram := macdLine - signalLine
      let sig0 : String × ℚ :=
        if macdLine > 0 ∧ histogram > 0 then ("BUY", min (|histogram| * 10) 1)
        else if macdLine < 0 ∧ histogram < 0 then ("SELL", min (|histogram| * 10) 1)
        else ("HOLD", 0)
      -- histogram-divergence boost
      let sig1 : String × ℚ :=
        if candles.length ≥ 3 then
          let prevCandles := (candles.drop (candles.length - 3)).take 2
          let prevMacdValues := prevCandles.mapIdx (fun i _ =>
            let slice := candles.take (candles.length - 2 + i)
            let e12 := calculateEMA slice 12
            let e26 := calculateEMA slice 26
            if jsTruthyNum e12 ∧ jsTruthyNum e26 then e12.getD 0 - e26.getD 0 else 0)
          let prevHistogram :=
            if prevMacdValues.length > 0 then
              prevMacdValues.getLastD 0 -
                (prevMacdValues.sum / (prevMacdValues.length : ℚ))
            else 0
          if histogram > prevHistogram ∧ sig0.1 = "BUY" then
            (sig0.1, min (sig0.2 * (13/10)) 1)
          else if histogram < prevHistogram ∧ sig0.1 = "SELL" then
            (sig0.1, min (sig0.2 * (13/10)) 1)
          else sig0
        else sig0
      { signal := sig1.1, strength := sig1.2,
        indicators := some
          { macdLine := macdLine, signalLine := signalLine, histogram := histogram } }

/-! ## Donchian channels (src/js/analysis.js:796-874) -/

/-- Per-period Donchian record pushed into `results`. -/
structure DonchianPeriodResult where
  period : ℕ
  highest : ℚ
  lowest : ℚ
  middle : ℚ
  signal : String
  strength : ℚ
  position : String
deriving DecidableEq, Repr

/-- Accumulator of the `results.reduce` call; the initial accumulator
`{signal: 'HOLD', strength: 0}` has no `position` key, hence the `Option`. -/
structure DonchianBest where
  signal : String
  strength : ℚ
  position : Option String
deriving DecidableEq, Repr

/-- Overall result of `analyzeDonchianChannels`; the short-series early return
carries no `allPeriods` key, modelled as the empty list. -/
structure DonchianResult where
  signal : String
  strength : ℚ
  position : Option String
  allPeriods : List DonchianPeriodResult
deriving DecidableEq, Repr

/-- The highest high of the last `period` candles. -/
def donchianHighest (candles : List Candle) (period : ℕ) : ℚ :=
  listMax ((candles.drop (candles.length - period)).map (·.high))

/-- The lowest low of the last `period` candles. -/
def donchianLowest (candles : List Candle) (period : ℕ) : ℚ :=
  listMin ((candles.drop (candles.length - period)).map (·.low))

/-- `config.donchian.breakoutThreshold = 0.015` scaled by the channel width. -/
def donchianBreakout (candles : List Candle) (period : ℕ) : ℚ :=
  (donchianHighest candles period - donchianLowest candles period) * (15/1000)

/-- The `confirmed` flag of the upper-breakout branch (analysis.js:823-827):
the last three closes must sustain the breakout. -/
def donchianUpperConfirmed (candles : List Candle) (period : ℕ) : Bool :=
  if candles.length ≥ 3 then
    (candles.drop (candles.length - 3)).all
      (fun c => decide (c.close >
        donchianHighest candles period - donchianBreakout candles period))
  else true

/-- The `confirmed` flag of the lower-breakout branch (analysis.js:835-840). -/
def donchianLowerConfirmed (candles : List Candle) (period : ℕ) : Bool :=
  if candles.length ≥ 3 then
    (candles.drop (candles.length - 3)).all
      (fun c => decide (c.close <
        donchianLowest candles period + donchianBreakout candles period))
  else true

/-- Body of the `periods.forEach` loop of `analyzeDonchianChannels`
(analysis.js:806-858), for one period with enough candles. -/
def donchianPeriodResult (candles : List Candle) (period : ℕ) : DonchianPeriodResult :=
  if (candles.getD (candles.length - 1) defCandle).close >
      donchianHighest candles period - donchianBreakout candles period then
    if donchianUpperConfirmed candles period then
      ⟨period, donchianHighest candles period, donchianLowest candles period,
       (donchianHighest candles period + donchianLowest candles period) / 2,
       "BUY", 9/10, "upper_breakout"⟩
    else
      ⟨period, donchianHighest candles period, donchianLowest candles period,
       (donchianHighest candles period + donchianLowest candles period) / 2,
       "HOLD", 0, "middle"⟩
  else if (candles.getD (candles.length - 1) defCandle).close <
      donchianLowest candles period + donchianBreakout candles period then
    if donchianLowerConfirmed candles period then
      ⟨period, donchianHighest candles period, donchianLowest candles period,
       (donchianHighest candles period + donchianLowest candles period) / 2,
       "SELL", 9/10, "lower_breakout"⟩
    else
      ⟨period, donchianHighest candles period, donchianLowest candles period,
       (donchianHighest candles period + donchianLowest candles period) / 2,
       "HOLD", 0, "middle"⟩
  else
    ⟨period, donchianHighest candles period, donchianLowest candles period,
     (donchianHighest candles period + donchianLowest candles period) / 2,
     "HOLD", 0, "middle"⟩

/-- One step of the `results.reduce` call of `analyzeDonchianChannels`
(analysis.js:861-866). -/
def donchianReduceStep (best : DonchianBest) (current : DonchianPeriodResult) :
    DonchianBest :=
  if current.strength > best.strength then
    ⟨current.signal, current.strength, some current.position⟩
  else best

/-- `analyzeDonchianChannels` (analysis.js:796-874);
`config.donchian.periods = [20, 50]`. -/
def analyzeDonchianChannels (candles : List Candle) : DonchianResult :=
  if candles.length < 20 then
    { signal := "HOLD", strength := 0, position := some "middle", allPeriods := [] }
  else
    let results := ([20, 50] : List ℕ).filterMap (fun period =>
      if candles.length ≥ period then some (donchianPeriodResult candles period)
      else none)
    let strongestSignal := results.foldl donchianReduceStep
      (⟨"HOLD", 0, none⟩ : DonchianBest)
    { signal := strongestSignal.signal, strength := strongestSignal.strength,
      position := strongestSignal.position, allPeriods := results }

/-! ## Support/Resistance (src/js/analysis.js:636-793) -/

/-- One touch point (a candle high or low) collected by
`analyzeSupportResistance`. -/
structure SRPoint where
  y : ℚ
  type : String
  index : ℕ
  weight : ℚ
  candle : Candle
deriving DecidableEq, Repr

/-- The running cluster `currentLevel` of the clustering loop. -/
structure SRCluster where
  sum : ℚ
  weightedSum : ℚ
  touches : ℕ
  values : List ℚ
  type : String
  indices : List ℕ
  candles : List Candle
deriving DecidableEq, Repr

/-- A reported support/resistance level. -/
structure SRLevel where
  level : ℚ
  touches : ℕ
  strength : ℚ
  indices : List ℕ
  candles : List Candle
deriving DecidableEq, Repr

/-- Result of `analyzeSupportResistance`; the short-series early return has no
`levels` key, modelled as the empty list. -/
structure SRResult where
  supports : List SRLevel
  resistances : List SRLevel
  signal : String
  strength : ℚ
  levels : List SRLevel
deriving DecidableEq, Repr

/-- A fresh cluster seeded from one point (analysis.js:674-682 and 709-717). -/
def srClusterOfPoint (p : SRPoint) : SRCluster :=
  { sum := p.y * p.weight, weightedSum := p.weight, touches := 1,
    values := [p.y], type := p.type, indices := [p.index], candles := [p.candle] }

/-- Closing a cluster into a level (analysis.js:698-707 and 721-731). -/
def srLevelOfCluster (cl : SRCluster) : SRLevel :=
  let weightedAverage := cl.sum / cl.weightedSum
  { level := (jsRound weightedAverage : ℚ), touches := cl.touches,
    strength := min ((cl.touches : ℚ) / 6) 1 * (cl.weightedSum / (cl.touches : ℚ) / 2),
    indices := cl.indices, candles := cl.candles }

/-- `analyzeSupportResistance` (analysis.js:636-793).
`config.supportResistance = {zoneProximity: 0.015, minTouches: 2,
clusterTolerance: 0.01, confirmationCandles: 3}`. -/
def analyzeSupportResistance (candles : List Candle) (imageHeight : ℕ) : SRResult :=
  if candles.length < 8 then
    { supports := [], resistances := [], signal := "HOLD", strength := 0, levels := [] }
  else
    -- collect weighted highs and lows
    let points : List SRPoint := candles.enum.flatMap (fun ic =>
      let i := ic.1
      let c := ic.2
      let weight : ℚ := 1 + ((i : ℚ) / (candles.length : ℚ)) * 2
      [⟨c.high, "resistance", i, weight, c⟩, ⟨c.low, "support", i, weight, c⟩])
    let sorted := points.mergeSort (fun a b => decide (a.y ≤ b.y))
    -- greedy clustering with dynamic tolerance
    let levels : List SRLevel :=
      match sorted with
      | [] => []  -- unreachable: at least 8 candles give at least 16 points
      | p0 :: rest =>
        let step := fun (st : SRCluster × List SRLevel) (p : SRPoint) =>
          let cur := st.1
          let distance := p.y - cur.values.getLastD 0
          let dynamicTolerance :=
            (imageHeight : ℚ) * (1/100) * (1 + ((p.index : ℚ) / (candles.length : ℚ)) * (1/2))
          if distance < dynamicTolerance then
            ({ sum := cur.sum + p.y * p.weight, weightedSum := cur.weightedSum + p.weight,
               touches := cur.touches + 1, values := cur.values ++ [p.y],
               type := cur.type, indices := cur.indices ++ [p.index],
               candles := cur.candles ++ [p.candle] }, st.2)
          else
            let levels' := if cur.touches ≥ 2 then st.2 ++ [srLevelOfCluster cur] else st.2
            (srClusterOfPoint p, levels')
        let final := rest.foldl step (srClusterOfPoint p0, [])
        if final.1.touches ≥ 2 then final.2 ++ [srLevelOfCluster final.1] else final.2
    let lastCandle := candles.getD (candles.length - 1) defCandle
    let currentPrice := lastCandle.close
    -- drop levels dominated by a materially stronger nearby level
    -- (JS compares object identity `otherLevel !== level`; modelled by position)
    let indexed := levels.enum
    let validatedLevels := (indexed.filter (fun li =>
      ¬ indexed.any (fun oj =>
        decide (oj.1 ≠ li.1) &&
        decide (oj.2.strength > li.2.strength * (12/10)) &&
        decide (|oj.2.level - li.2.level| < (imageHeight : ℚ) * (1/100) * 3)))).map (·.2)
    let supports := (validatedLevels.filter (fun l => decide (l.level > currentPrice))).mergeSort
      (fun a b => decide (a.level ≤ b.level))
    let resistances := (validatedLevels.filter (fun l => decide (l.level < currentPrice))).mergeSort
      (fun a b => decide (b.level ≤ a.level))
    let nearestSupport := supports.head?
    let nearestResistance := resistances.head?
    let supportZone : ℚ :=
      match nearestSupport with
      | some s => (imageHeight : ℚ) * (15/1000) * (1 + s.strength * (7/10))
      | none => 0
    let resistanceZone : ℚ :=
      match nearestResistance with
      | some r => (imageHeight : ℚ) * (15/1000) * (1 + r.strength * (7/10))
      | none => 0
    -- confirmation from the candles just before the current one
    let confirmed : Bool × Bool :=
      if candles.length ≥ 4 then
        let recentCandles := (candles.drop (candles.length - 4)).take 3
        (recentCandles.any (fun c =>
           match nearestSupport with
           | some s => decide (|c.low - s.level| < supportZone * (1/2))
           | none => false),
         recentCandles.any (fun c =>
           match nearestResistance with
           | some r => decide (|c.high - r.level| < resistanceZone * (1/2))
           | none => false))
      else (false, false)
    let supportConfirmed := confirmed.1
    let resistanceConfirmed := confirmed.2
    let sigStr : String × ℚ :=
      match nearestResistance with
      | some r =>
        if |currentPrice - r.level| < resistanceZone ∧ resistanceConfirmed then
          ("SELL", min (r.strength * (12/10)) 1)
        else
          match nearestSupport with
          | some s =>
            if |currentPrice - s.level| < supportZone ∧ supportConfirmed then
              ("BUY", min (s.strength * (12/10)) 1)
            else ("HOLD", 0)
          | none => ("HOLD", 0)
      | none =>
        match nearestSupport with
        | some s =>
          if |currentPrice - s.level| < supportZone ∧ supportConfirmed then
            ("BUY", min (s.strength * (12/10)) 1)
          else ("HOLD", 0)
        | none => ("HOLD", 0)
    { supports := supports, resistances := resistances,
      signal := sigStr.1, strength := sigStr.2, levels := validatedLevels }

/-! ## Signal combination and full technical analysis -/

/-- Result of `combineTechnicalSignals`. -/
structure CombinedSignal where
  signal : String
  confidence : ℚ
deriving DecidableEq, Repr

/-- `combineTechnicalSignals` (analysis.js:1023-1071).  Note
`quantAnalysis.strength || 0.5`: a zero strength falls back to `0.5`. -/
def combineTechnicalSignals (srAnalysis : SRResult) (donchianAnalysis : DonchianResult)
    (quantAnalysis : Option QuantResult) (maAnalysis : MAResult)
    (macdAnalysis : MACDResult) : CombinedSignal :=
  let signals : List (String × ℚ) :=
    [(srAnalysis.signal, srAnalysis.strength * (12/10)),
     (donchianAnalysis.signal, donchianAnalysis.strength),
     (maAnalysis.signal, maAnalysis.strength * (9/10)),
     (macdAnalysis.signal, macdAnalysis.strength)]
    ++ (match quantAnalysis with
        | some q =>
          -- JS: `if (quantAnalysis && quantAnalysis.signal)` (empty string falsy)
          if q.signal ≠ "" then
            [(q.signal, (if q.strength = 0 then 1/2 else q.strength) * (8/10))]
          else []
        | none => [])
  let scores := signals.foldl
    (fun bs s =>
      ((if s.1 = "BUY" then bs.1 + s.2 else bs.1),
       (if s.1 = "SELL" then bs.2 + s.2 else bs.2)))
    ((0 : ℚ), (0 : ℚ))
  let buyScore := scores.1
  let sellScore := scores.2
  let totalScore := buyScore + sellScore
  if totalScore = 0 then { signal := "HOLD", confidence := 0 }
  else if buyScore > sellScore then
    { signal := "BUY", confidence := min 98 ((buyScore / totalScore) * 100) }
  else
    { signal := "SELL", confidence := min 98 ((sellScore / totalScore) * 100) }

/-- The record returned by `performTechnicalAnalysis`. -/
structure TechnicalAnalysis where
  supportResistance : SRResult
  donchianChannels : DonchianResult
  quantitative : Option QuantResult
  movingAverages : MAResult
  macd : MACDResult
  combinedSignal : CombinedSignal
deriving DecidableEq, Repr

/-- `performTechnicalAnalysis` (analysis.js:605-633); of the image data only
the height is read. -/
def performTechnicalAnalysis (sqrtFn : ℚ → ℚ) (candles : List Candle)
    (imageHeight : ℕ) : TechnicalAnalysis :=
  let srAnalysis := analyzeSupportResistance candles imageHeight
  let donchianAnalysis := analyzeDonchianChannels candles
  let quantAnalysis := performQuantitativeAnalysis sqrtFn candles
  let maAnalysis := analyzeMovingAverages candles
  let macdAnalysis := analyzeMACD candles
  { supportResistance := srAnalysis, donchianChannels := donchianAnalysis,
    quantitative := quantAnalysis, movingAverages := maAnalysis,
    macd := macdAnalysis,
    combinedSignal :=
      combineTechnicalSignals srAnalysis donchianAnalysis quantAnalysis
        maAnalysis macdAnalysis }

/-! ## Recommendation generation (src/js/analysis.js:1250-1500) -/

/-- One entry of the human-readable `summary` array: its classification and
signed numeric impact (the display `text` string is presentation-only and not
modelled). -/
structure SummaryEntry where
  type : String
  impact : ℚ
deriving DecidableEq, Repr

/-- The `config.scores` table (analysis.js:25-57), keyed by the pattern name
with spaces removed.  Returns `none` for a missing key.  (The detector emits
capitalized names such as "BullishEngulfing" while the table keys are
lower-camel-case, so pattern lookups actually miss and fall back to the
default 2.0 — preserved faithfully.) -/
def scoresLookup : String → Option ℚ
  | "doji" => some 1
  | "spinningTop" => some (3/2)
  | "hammer" => some (5/2)
  | "invertedHammer" => some 2
  | "shootingStar" => some 2
  | "hangingMan" => some (5/2)
  | "bullishEngulfing" => some 4
  | "bearishEngulfing" => some 4
  | "bullishHarami" => some 3
  | "bearishHarami" => some 3
  | "piercingLine" => some (7/2)
  | "darkCloudCover" => some (7/2)
  | "morningStar" => some 5
  | "eveningStar" => some 5
  | "threeWhiteSoldiers" => some (9/2)
  | "threeBlackCrows" => some (9/2)
  | "tweezerTop" => some (5/2)
  | "tweezerBottom" => some (5/2)
  | "risingThree" => some (7/2)
  | "fallingThree" => some (7/2)
  | "gapUp" => some 3
  | "gapDown" => some 3
  | "strongSupport" => some 5
  | "strongResistance" => some 5
  | "upperBreakout" => some (9/2)
  | "lowerBreakout" => some (9/2)
  | "rsiOversold" => some 3
  | "rsiOverbought" => some 3
  | "macdBullish" => some (7/2)
  | "macdBearish" => some (7/2)
  | _ => none

/-- The result of one candle-analysis run (`analyzeProfessionalCandlesticks`
return value). -/
structure CandleAnalysis where
  candles : List Candle
  patterns : List Pattern
  mainPattern : Pattern
deriving DecidableEq, Repr

/-- The final recommendation record.  `scores` keeps the raw buy/sell totals
(the source formats them with `toFixed(1)` for display). -/
structure Recommendation where
  action : String
  confidence : ℤ
  profitTarget : ℚ
  riskLevel : ℚ
  color : String
  summary : List SummaryEntry
  scores : ℚ × ℚ
deriving DecidableEq, Repr

/-- Score accumulation of `generateProfessionalRecommendation`
(analysis.js:1251-1375): returns (buyScore, sellScore, summary). -/
def accumulateScores (candleAnalysis : CandleAnalysis)
    (technicalAnalysis : TechnicalAnalysis) : ℚ × ℚ × List SummaryEntry :=
  -- candlestick patterns
  let acc0 : ℚ × ℚ × List SummaryEntry := candleAnalysis.patterns.foldl
    (fun acc p =>
      let baseScore := jsOrNum (scoresLookup (p.name.replace " " "")) 2
      let score := baseScore * p.strength
      if p.signal = "BUY" then (acc.1 + score, acc.2.1, acc.2.2 ++ [⟨"bullish", score⟩])
      else if p.signal = "SELL" then (acc.1, acc.2.1 + score, acc.2.2 ++ [⟨"bearish", score⟩])
      else acc)
    (0, 0, [])
  -- support/resistance (scores.strongSupport = scores.strongResistance = 5.0)
  let srSignal := technicalAnalysis.supportResistance
  let acc1 :=
    if srSignal.signal = "BUY" then
      let score := 5 * srSignal.strength
      (acc0.1 + score, acc0.2.1, acc0.2.2 ++ [⟨"bullish", score⟩])
    else if srSignal.signal = "SELL" then
      let score := 5 * srSignal.strength
      (acc0.1, acc0.2.1 + score, acc0.2.2 ++ [⟨"bearish", score⟩])
    else acc0
  -- Donchian channels (scores.upperBreakout = scores.lowerBreakout = 4.5)
  let donchianSignal := technicalAnalysis.donchianChannels
  let acc2 :=
    if donchianSignal.signal = "BUY" then
      let score := (9/2) * donchianSignal.strength
      (acc1.1 + score, acc1.2.1, acc1.2.2 ++ [⟨"bullish", score⟩])
    else if donchianSignal.signal = "SELL" then
      let score := (9/2) * donchianSignal.strength
      (acc1.1, acc1.2.1 + score, acc1.2.2 ++ [⟨"bearish", score⟩])
    else acc1
  -- moving averages (literal 3.5 weight)
  let maSignal := technicalAnalysis.movingAverages
  let acc3 :=
    if maSignal.signal = "BUY" then
      let score := (7/2) * maSignal.strength
      (acc2.1 + score, acc2.2.1, acc2.2.2 ++ [⟨"bullish", score⟩])
    else if maSignal.signal = "SELL" then
      let score := (7/2) * maSignal.strength
      (acc2.1, acc2.2.1 + score, acc2.2.2 ++ [⟨"bearish", score⟩])
    else acc2
  -- MACD (scores.macdBullish = scores.macdBearish = 3.5)
  let macdSignal := technicalAnalysis.macd
  let acc4 :=
    if macdSignal.signal = "BUY" then
      let score := (7/2) * macdSignal.strength
      (acc3.1 + score, acc3.2.1, acc3.2.2 ++ [⟨"bullish", score⟩])
    else if macdSignal.signal = "SELL" then
      let score := (7/2) * macdSignal.strength
      (acc3.1, acc3.2.1 + score, acc3.2.2 ++ [⟨"bearish", score⟩])
    else acc3
  -- quantitative analysis (literal 3.0 weight)
  match technicalAnalysis.quantitative with
  | some quantSignal =>
    if quantSignal.signal ≠ "HOLD" then
      let score := 3 * quantSignal.strength
      if quantSignal.signal = "BUY" then
        (acc4.1 + score, acc4.2.1, acc4.2.2 ++ [⟨"bullish", score⟩])
      else if quantSignal.signal = "SELL" then
        (acc4.1, acc4.2.1 + score, acc4.2.2 ++ [⟨"bearish", score⟩])
      else acc4
    else acc4
  | none => acc4

/-- First decision block of `generateProfessionalRecommendation`
(analysis.js:1377-1424): the pre-threshold
(action, confidence, profitTarget, riskLevel, color) tuple.
`config.recommendation`: profit targets
{conservative: 0.015, moderate: 0.03, aggressive: 0.045}, risk levels
{conservative: 0.0075, moderate: 0.015, aggressive: 0.0225}. -/
def rawConfidence (buyScore sellScore : ℚ) : ℚ :=
  50 + (|buyScore - sellScore| / (buyScore + sellScore)) * 50

/-- `confidence = Math.min(95, Math.round(rawConfidence))` (analysis.js:1391). -/
def confidenceOf (buyScore sellScore : ℚ) : ℤ :=
  min 95 (jsRound (rawConfidence buyScore sellScore))

def decideInit (buyScore sellScore : ℚ) : String × ℤ × ℚ × ℚ × String :=
  if buyScore + sellScore = 0 ∨ |buyScore - sellScore| < 3/2 then
    ("WAIT", 40, 0, 0, "var(--text-muted)")
  else
    if buyScore > sellScore then
      if confidenceOf buyScore sellScore ≥ 85 then
        ("BUY", confidenceOf buyScore sellScore, 45/1000, 225/10000, "var(--success-green)")
      else if confidenceOf buyScore sellScore ≥ 75 then
        ("BUY", confidenceOf buyScore sellScore, 3/100, 15/1000, "var(--success-green)")
      else ("BUY", confidenceOf buyScore sellScore, 15/1000, 75/10000, "var(--success-green)")
    else
      if confidenceOf buyScore sellScore ≥ 85 then
        ("SELL", confidenceOf buyScore sellScore, 45/1000, 225/10000, "var(--danger-red)")
      else if confidenceOf buyScore sellScore ≥ 75 then
        ("SELL", confidenceOf buyScore sellScore, 3/100, 15/1000, "var(--danger-red)")
      else ("SELL", confidenceOf buyScore sellScore, 15/1000, 75/10000, "var(--danger-red)")

/-- The profit-target adjustment block of `generateProfessionalRecommendation`
(analysis.js:1441-1483): volatility, trend-strength, RSI-extremity, and
moving-average-alignment multipliers, in source order. -/
def adjustProfitTarget (technicalAnalysis : TechnicalAnalysis) (action : String)
    (profitTarget : ℚ) : ℚ :=
  let pt1 :=
    match technicalAnalysis.quantitative with
    | some quantData =>
      let ind := quantData.indicators
      let ptA :=
        if ind.volatility > 4/100 then profitTarget * (6/10)
        else if ind.volatility > 3/100 then profitTarget * (75/100)
        else if ind.volatility > 2/100 then profitTarget * (9/10)
        else profitTarget
      let ptB :=
        if |ind.trendStrength| > 6/10 then ptA * (125/100)
        else if |ind.trendStrength| > 4/10 then ptA * (115/100)
        else ptA
      if ind.rsi > 85 ∨ ind.rsi < 15 then ptB * (85/100) else ptB
    | none => profitTarget
  match technicalAnalysis.movingAverages.indicators with
  | some maInd =>
    if jsTruthyNum maInd.sma9 ∧ jsTruthyNum maInd.sma20 ∧ jsTruthyNum maInd.sma50 then
      let s9 := maInd.sma9.getD 0
      let s20 := maInd.sma20.getD 0
      let s50 := maInd.sma50.getD 0
      if action = "BUY" ∧ s9 > s20 ∧ s20 > s50 then pt1 * (11/10)
      else if action = "SELL" ∧ s9 < s20 ∧ s20 < s50 then pt1 * (11/10)
      else if (action = "BUY" ∧ (s9 < s20 ∨ s20 < s50)) ∨
              (action = "SELL" ∧ (s9 > s20 ∨ s20 > s50)) then pt1 * (85/100)
      else pt1
    else pt1
  | none => pt1

/-- Decision core of `generateProfessionalRecommendation`
(analysis.js:1377-1500), from the accumulated scores: pre-threshold decision
(`decideInit`), the hard 65 confidence threshold, the profit-target
adjustments (`adjustProfitTarget`), and final rounding.
`config.recommendation.confidenceThreshold = 65`. -/
def decideRecommendation (buyScore sellScore : ℚ) (summary : List SummaryEntry)
    (technicalAnalysis : TechnicalAnalysis) : Recommendation :=
  let init := decideInit buyScore sellScore
  let confidence := init.2.1
  let color := init.2.2.2.2
  -- hard 65% confidence threshold (action/profit/risk overridden; color is not)
  let thr : String × ℚ × ℚ × List SummaryEntry :=
    if confidence < 65 then
      ("WAIT", 0, 0, summary ++ [⟨"neutral", 0⟩])
    else
      (init.1, init.2.2.1, init.2.2.2.1, summary)
  let action := thr.1
  let profitTarget := thr.2.1
  let riskLevel := thr.2.2.1
  let summary1 := thr.2.2.2
  let realProfitPercentage : ℚ :=
    if action ≠ "WAIT" ∧ profitTarget > 0 then
      (jsRound (adjustProfitTarget technicalAnalysis action profitTarget * 100 * 10) : ℚ) / 10
    else 0
  { action := action, confidence := confidence,
    profitTarget := realProfitPercentage,
    riskLevel := (jsRound (riskLevel * 100 * 10) : ℚ) / 10,
    color := color,
    summary := (summary1.mergeSort (fun a b => decide (b.impact ≤ a.impact))).take 10,
    scores := (buyScore, sellScore) }

/-- `generateProfessionalRecommendation` (analysis.js:1250-1500). -/
def generateProfessionalRecommendation (candleAnalysis : CandleAnalysis)
    (technicalAnalysis : TechnicalAnalysis) : Recommendation :=
  let acc := accumulateScores candleAnalysis technicalAnalysis
  decideRecommendation acc.1 acc.2.1 acc.2.2 technicalAnalysis

/-! ## Candle extraction from the pixel buffer (src/js/analysis.js:166-312) -/

/-- One RGBA sample (alpha is never read by the engine). -/
structure RGB where
  r : ℕ
  g : ℕ
  b : ℕ
deriving DecidableEq, Repr

/-- An immutable pixel buffer: `pixel x y` is the sample of column `x`,
row `y` (row 0 at the top). -/
structure PixelBuffer where
  width : ℕ
  height : ℕ
  pixel : ℕ → ℕ → RGB

/-- `config.candles.greenCandle = (r,g,b) => g > r*1.3 && g > b*1.3 && g > 100`
(exact over integer samples: `g > 1.3*r ↔ 10*g > 13*r`). -/
def greenCandle (p : RGB) : Bool :=
  decide (10 * p.g > 13 * p.r) && decide (10 * p.g > 13 * p.b) && decide (p.g > 100)

/-- `config.candles.redCandle = (r,g,b) => r > g*1.3 && r > b*1.3 && r > 100`. -/
def redCandle (p : RGB) : Bool :=
  decide (10 * p.r > 13 * p.g) && decide (10 * p.r > 13 * p.b) && decide (p.r > 100)

/-- A pixel that belongs to a candle silhouette (either color matches). -/
def isCandlePixel (p : RGB) : Bool :=
  greenCandle p || redCandle p

/-- Number of integer rows `y` with `y < height * 0.9`
(`config.candles.chartAreaRatio = 0.9`): `⌈9h/10⌉`. -/
def chartRows (height : ℕ) : ℕ :=
  (9 * height + 9) / 10

/-- The vertical scan of one column (analysis.js:183-191): does any pixel in
the chart area match either candle color? -/
def isCandleColumn (buf : PixelBuffer) (x : ℕ) : Bool :=
  (List.range (chartRows buf.height)).any (fun y => isCandlePixel (buf.pixel x y))

/-- A detected run of consecutive candle columns (`x_start`/`x_end` of the
source's in-progress candle objects). -/
structure CRun where
  xStart : ℕ
  xEnd : ℕ
deriving DecidableEq, Repr

/-- The right-to-left column scan of `analyzeProfessionalCandlesticks`
(analysis.js:180-217).  `x` is the next column to examine (the JS loop runs
`x = width-1` down to `x = 1`); `cur = some e` means a run with right edge `e`
is open and every column from `x+1` to `e` matched; `acc` are the runs pushed
so far (newest first).  `config.candles.minWidth = 2`, `scanCount = 150`.
The `break` on reaching `scanCount` skips the trailing-candle push, as in the
source. -/
def scanLoop (buf : PixelBuffer) : ℕ → Option ℕ → List CRun → List CRun
  | 0, cur, acc =>
    -- loop ended; handle a still-open run (its xStart is column 1)
    (match cur with
     | some e =>
       if e - 1 ≥ 2 ∧ acc.length < 150 then acc ++ [⟨1, e⟩] else acc
     | none => acc)
  | x + 1, cur, acc =>
    if isCandleColumn buf (x + 1) then
      match cur with
      | some e => scanLoop buf x (some e) acc
      | none => scanLoop buf x (some (x + 1)) acc
    else
      match cur with
      | some e =>
        if e - (x + 2) ≥ 2 then
          if acc.length + 1 ≥ 150 then acc ++ [⟨x + 2, e⟩]
          else scanLoop buf x none (acc ++ [⟨x + 2, e⟩])
        else scanLoop buf x none acc
      | none => scanLoop buf x none acc

/-- All detected column runs, newest (rightmost) first. -/
def detectRuns (buf : PixelBuffer) : List CRun :=
  scanLoop buf (buf.width - 1) none []

/-- One step of the first vertical scan (analysis.js:234-244): on a matching
row set `high` on first detection (sentinel `high = height`) and always update
`low`. -/
def boundaryStep (buf : PixelBuffer) (midX : ℕ) (st : ℕ × ℕ) (y : ℕ) : ℕ × ℕ :=
  if isCandlePixel (buf.pixel midX y) then
    (if st.1 = buf.height then y else st.1, y)
  else st

/-- The body scan's color test (analysis.js:260-261):
`(isGreen && green) || (isRed && red)` with `isRed = !isGreen`. -/
def colorMatchAt (buf : PixelBuffer) (midX : ℕ) (useGreen : Bool) (y : ℕ) : Bool :=
  if useGreen then greenCandle (buf.pixel midX y) else redCandle (buf.pixel midX y)

/-- One step of the body scan (analysis.js:257-272): state is
`(bodyHigh, bodyLow, inBody)`. -/
def bodyStep (buf : PixelBuffer) (midX : ℕ) (useGreen : Bool)
    (st : ℕ × ℕ × Bool) (y : ℕ) : ℕ × ℕ × Bool :=
  if colorMatchAt buf midX useGreen y then
    ((if st.2.2 then st.1 else y), y, true)
  else st

/-- Per-candle measurement (analysis.js:223-290) at the run's midpoint column. -/
def measureCandle (buf : PixelBuffer) (run : CRun) : Candle :=
  let midX := (run.xStart + run.xEnd + 1) / 2  -- Math.round((x_start + x_end) / 2)
  let hl := (List.range (chartRows buf.height)).foldl (boundaryStep buf midX)
    (buf.height, 0)
  let high := hl.1
  let low := hl.2
  let span := List.range' high (low + 1 - high)
  let greenPixels := span.countP (fun y => greenCandle (buf.pixel midX y))
  let redPixels := span.countP (fun y => redCandle (buf.pixel midX y))
  let isGreen := decide (greenPixels > redPixels)
  let bb := span.foldl (bodyStep buf midX isGreen) (buf.height, 0, false)
  let bodyHigh := bb.1
  let bodyLow := bb.2.1
  let totalHeight : ℚ := max 1 ((low : ℚ) - (high : ℚ))
  let openP : ℚ := if isGreen then (bodyLow : ℚ) else (bodyHigh : ℚ)
  let close : ℚ := if isGreen then (bodyHigh : ℚ) else (bodyLow : ℚ)
  { xStart := run.xStart, xEnd := run.xEnd,
    high := (high : ℚ), low := (low : ℚ),
    totalHeight := totalHeight,
    bodyTop := (bodyHigh : ℚ), bodyBottom := (bodyLow : ℚ),
    openP := openP, close := close,
    bodyHeight := |close - openP|,
    upperWick := (if isGreen then close else openP) - (high : ℚ),
    lowerWick := (low : ℚ) - (if isGreen then openP else close),
    bodyRatio := |close - openP| / totalHeight,
    upperWickRatio := ((if isGreen then close else openP) - (high : ℚ)) / max 1 totalHeight,
    lowerWickRatio := ((low : ℚ) - (if isGreen then openP else close)) / max 1 totalHeight,
    isGreen := isGreen, isRed := !isGreen }

/-- The chronological, validated candle list of the extraction stage
(measured runs reversed into oldest-first order, zero-height candles
filtered). -/
def extractValidCandles (buf : PixelBuffer) : List Candle :=
  (((detectRuns buf).map (measureCandle buf)).reverse).filter
    (fun c => decide (c.totalHeight > 0))

/-- `analyzeProfessionalCandlesticks` (analysis.js:166-312); the two `throw`
sites become `Except.error` with the source's messages. -/
def analyzeProfessionalCandlesticks (buf : PixelBuffer) :
    Except String CandleAnalysis :=
  if (detectRuns buf).isEmpty then
    .error "No candles detected in chart image - ensure image contains clear candlestick chart"
  else
    let validCandles := extractValidCandles buf
    if validCandles.isEmpty then
      .error "No valid candles found after processing"
    else
      let patterns := detectAllCandlestickPatterns validCandles
      .ok { candles := validCandles, patterns := patterns,
            mainPattern := patterns.headD ⟨"No Pattern", "HOLD", 0, ""⟩ }

/-- The full analysis pipeline of `performAdvancedAnalysis` (analysis.js:73-125)
restricted to its decision core: extraction, technical analysis, and
recommendation generation on one pixel buffer. -/
def runPipeline (sqrtFn : ℚ → ℚ) (buf : PixelBuffer) : Except String Recommendation :=
  match analyzeProfessionalCandlesticks buf with
  | .error e => .error e
  | .ok candleAnalysis =>
    .ok (generateProfessionalRecommendation candleAnalysis
      (performTechnicalAnalysis sqrtFn candleAnalysis.candles buf.height))

/-! ## Proof-support predicates (used only to state the correctness lemmas) -/

/-- All columns covered by a detected run pass the candle-column test. -/
def runAllMatch (buf : PixelBuffer) (r : CRun) : Prop :=
  r.xStart ≤ r.xEnd ∧
  ∀ c, r.xStart ≤ c → c ≤ r.xEnd → isCandleColumn buf c = true

/-- Specification of the boundary-scan fold after the first `m` rows: either
still the sentinel state with no matching row seen, or `(high, low)` both
matching rows with `high ≤ low < m`. -/
def boundSpec (buf : PixelBuffer) (midX m : ℕ) (st : ℕ × ℕ) : Prop :=
  (st = (buf.height, 0) ∧ ∀ y, y < m → isCandlePixel (buf.pixel midX y) = false) ∨
  (isCandlePixel (buf.pixel midX st.1) = true ∧
   isCandlePixel (buf.pixel midX st.2) = true ∧
   st.1 ≤ st.2 ∧ st.2 < m)

/-- Specification of the body-scan fold over `range' lo n`: either untouched
with no color-matching row, or `(bodyHigh, bodyLow, true)` with
`lo ≤ bodyHigh ≤ bodyLow < lo + n` and `bodyHigh` a color-matching row. -/
def bodySpec (buf : PixelBuffer) (midX : ℕ) (useGreen : Bool) (lo n : ℕ)
    (st : ℕ × ℕ × Bool) : Prop :=
  (st = (buf.height, 0, false) ∧
    ∀ y, y ∈ List.range' lo n → colorMatchAt buf midX useGreen y = false) ∨
  (colorMatchAt buf midX useGreen st.1 = true ∧
   lo ≤ st.1 ∧ st.1 ≤ st.2.1 ∧ st.2.1 < lo + n ∧ st.2.2 = true)

/-! ## Concrete fixtures used by witnesses -/

/-- A pixel buffer drawing one green candle: columns 2-5, rows 2-7 of an
8 × 10 image. -/
def greenBuf : PixelBuffer :=
  { width := 8, height := 10,
    pixel := fun x y =>
      if 2 ≤ x ∧ x ≤ 5 ∧ 2 ≤ y ∧ y ≤ 7 then ⟨0, 200, 0⟩ else ⟨0, 0, 0⟩ }

/-- The technical analysis of an empty candle list (every indicator takes its
insufficient-history path). -/
def neutralTA : TechnicalAnalysis := performTechnicalAnalysis (fun q => q) [] 100

/-- A candle analysis with no candles and no patterns. -/
def emptyCA : CandleAnalysis :=
  { candles := [], patterns := [], mainPattern := ⟨"No Pattern", "HOLD", 0, ""⟩ }

/-- A bearish candle engulfed by `engulfC0`. -/
def engulfC1 : Candle :=
  { defCandle with isRed := true, isGreen := false, openP := 5, close := 6, bodyHeight := 1 }

/-- A bullish candle engulfing `engulfC1`. -/
def engulfC0 : Candle :=
  { defCandle with isGreen := true, isRed := false, openP := 4, close := 6, bodyHeight := 2 }

/-- A candle whose channel sits at rows 0-100 with close 99 (sustained
upper-breakout territory). -/
def breakoutCandle : Candle :=
  { defCandle with high := 100, low := 0, close := 99 }

/-- Twenty identical breakout candles: enough history for the 20-period
Donchian channel, with the last three closes all beyond the threshold band. -/
def breakoutCandles : List Candle := List.replicate 20 breakoutCandle

/-- Fifteen candles with strictly ascending closes (no losses in any window). -/
def ascendingCandles : List Candle :=
  (List.range 15).map (fun i => { defCandle with close := (i : ℚ) })

/-- Five placeholder candles (insufficient history for RSI(14)). -/
def fiveCandles : List Candle := List.replicate 5 defCandle

/-- A three-candle sequence ending in the engulfing pair. -/
def engulfTriple : List Candle := [defCandle, engulfC1, engulfC0]

/-- The one candle extracted from `greenBuf`: columns 2-5, midpoint column 4,
rows 2-7, all green. -/
def greenCandleLit : Candle :=
  { xStart := 2, xEnd := 5, high := 2, low := 7, totalHeight := 5, bodyTop := 2,
    bodyBottom := 7, openP := 7, close := 2, bodyHeight := 5, upperWick := 0,
    lowerWick := 0, bodyRatio := 1, upperWickRatio := 0, lowerWickRatio := 0,
    isGreen := true, isRed := false }

/-- The candle-analysis record produced on `greenBuf` (one candle, too few for
any pattern). -/
def greenCA : CandleAnalysis :=
  { candles := [greenCandleLit], patterns := [],
    mainPattern := ⟨"No Pattern", "HOLD", 0, ""⟩ }

/-! ## Helper lemmas -/

theorem jsRound_zero : jsRound 0 = 0 := by
  unfold jsRound
  rw [zero_add]
  exact Int.floor_eq_zero_iff.mpr (by norm_num)

/-- The decision record's `confidence` is the pre-threshold confidence. -/
theorem decideRecommendation_confidence (b s : ℚ) (sm : List SummaryEntry)
    (ta : TechnicalAnalysis) :
    (decideRecommendation b s sm ta).confidence = (decideInit b s).2.1 := rfl

/-- The decision record's `action` is the pre-threshold action gated by the
65-confidence threshold. -/
theorem decideRecommendation_action (b s : ℚ) (sm : List SummaryEntry)
    (ta : TechnicalAnalysis) :
    (decideRecommendation b s sm ta).action =
      if (decideInit b s).2.1 < 65 then "WAIT" else (decideInit b s).1 := by
  by_cases h : (decideInit b s).2.1 < 65
  · simp only [decideRecommendation, if_pos h]
  · simp only [decideRecommendation, if_neg h]

/-- The pre-threshold tuple is either the fixed no-signal WAIT tuple or
carries a BUY/SELL action. -/
theorem decideInit_cases (b s : ℚ) :
    decideInit b s = ("WAIT", 40, 0, 0, "var(--text-muted)") ∨
    ((decideInit b s).1 = "BUY" ∨ (decideInit b s).1 = "SELL") := by
  unfold decideInit
  by_cases h1 : b + s = 0 ∨ |b - s| < 3/2
  · left
    rw [if_pos h1]
  · right
    rw [if_neg h1]
    by_cases h2 : b > s
    · rw [if_pos h2]
      left
      by_cases h3 : confidenceOf b s ≥ 85
      · rw [if_pos h3]
      · rw [if_neg h3]
        by_cases h4 : confidenceOf b s ≥ 75
        · rw [if_pos h4]
        · rw [if_neg h4]
    · rw [if_neg h2]
      right
      by_cases h3 : confidenceOf b s ≥ 85
      · rw [if_pos h3]
      · rw [if_neg h3]
        by_cases h4 : confidenceOf b s ≥ 75
        · rw [if_pos h4]
        · rw [if_neg h4]

/-- Structural form of the decision core with the threshold tuple exposed. -/
theorem decideRecommendation_eq (b s : ℚ) (sm : List SummaryEntry)
    (ta : TechnicalAnalysis) :
    decideRecommendation b s sm ta =
      (let init := decideInit b s
       let thr : String × ℚ × ℚ × List SummaryEntry :=
         if init.2.1 < 65 then ("WAIT", 0, 0, sm ++ [⟨"neutral", 0⟩])
         else (init.1, init.2.2.1, init.2.2.2.1, sm)
       { action := thr.1, confidence := init.2.1,
         profitTarget :=
           if thr.1 ≠ "WAIT" ∧ thr.2.1 > 0 then
             (jsRound (adjustProfitTarget ta thr.1 thr.2.1 * 100 * 10) : ℚ) / 10
           else 0,
         riskLevel := (jsRound (thr.2.2.1 * 100 * 10) : ℚ) / 10,
         color := init.2.2.2.2,
         summary := (thr.2.2.2.mergeSort (fun a b => decide (b.impact ≤ a.impact))).take 10,
         scores := (b, s) }) := rfl

/-- The decision core never recommends below the 65 threshold: confidence
below 65 forces WAIT, and a BUY/SELL action implies confidence at least 65. -/
theorem decideRecommendation_threshold (b s : ℚ) (sm : List SummaryEntry)
    (ta : TechnicalAnalysis) :
    ((decideRecommendation b s sm ta).confidence < 65 →
      (decideRecommendation b s sm ta).action = "WAIT") ∧
    (((decideRecommendation b s sm ta).action = "BUY" ∨
      (decideRecommendation b s sm ta).action = "SELL") →
      65 ≤ (decideRecommendation b s sm ta).confidence) := by
  rw [decideRecommendation_action, decideRecommendation_confidence]
  by_cases h : (decideInit b s).2.1 < 65
  · rw [if_pos h]
    exact ⟨fun _ => rfl, fun hc => by rcases hc with hc | hc <;> simp at hc⟩
  · rw [if_neg h]
    exact ⟨fun hc => absurd hc h, fun _ => not_lt.mp h⟩

/-- Whenever the decision core returns WAIT, both the profit target and the
risk level of the returned record are exactly 0. -/
theorem decideRecommendation_wait_zeroes (b s : ℚ) (sm : List SummaryEntry)
    (ta : TechnicalAnalysis) :
    (decideRecommendation b s sm ta).action = "WAIT" →
    (decideRecommendation b s sm ta).profitTarget = 0 ∧
    (decideRecommendation b s sm ta).riskLevel = 0 := by
  intro hw
  rw [decideRecommendation_eq]
  by_cases h : (decideInit b s).2.1 < 65
  · simp only [if_pos h]
    norm_num [jsRound_zero]
  · -- threshold not triggered: the action survives, so it must be WAIT already
    rw [decideRecommendation_action, if_neg h] at hw
    rcases decideInit_cases b s with h40 | hbs
    · have : (decideInit b s).2.1 = 40 := by rw [h40]
      omega
    · rcases hbs with hb | hb <;> rw [hw] at hb <;> simp at hb

/-! ## Claim theorems -/

/-- C1: For every combination of pattern list and indicator results passed to
the recommendation generator, if the computed confidence is below 65 then the
returned action is WAIT; equivalently, a returned action of BUY or SELL always
carries confidence ≥ 65. -/
theorem recommendation_confidence_threshold (ca : CandleAnalysis)
    (ta : TechnicalAnalysis) :
    ((generateProfessionalRecommendation ca ta).confidence < 65 →
      (generateProfessionalRecommendation ca ta).action = "WAIT") ∧
    (((generateProfessionalRecommendation ca ta).action = "BUY" ∨
      (generateProfessionalRecommendation ca ta).action = "SELL") →
      65 ≤ (generateProfessionalRecommendation ca ta).confidence) := by
  unfold generateProfessionalRecommendation
  exact decideRecommendation_threshold _ _ _ _

/-- Witness for C1 at a concrete no-signal input: the computed confidence (40)
is below 65 and the theorem forces WAIT there. -/
theorem recommendation_confidence_threshold_witness :
    (generateProfessionalRecommendation emptyCA neutralTA).confidence < 65 ∧
    (generateProfessionalRecommendation emptyCA neutralTA).action = "WAIT" :=
  ⟨by with_unfolding_all decide, (recommendation_confidence_threshold emptyCA neutralTA).1 (by with_unfolding_all decide)⟩

/-- C2 (counterexample): with accumulated scores buyScore = 5, sellScore = 4
the generator does NOT compute confidence 56; the separation 1.0 is below the
1.5 minimum, so the no-clear-signal branch fires with fixed confidence 40
(the action is indeed WAIT). -/
theorem scores_5_4_confidence_is_40_not_56 :
    (decideRecommendation 5 4 [] neutralTA).action = "WAIT" ∧
    (decideRecommendation 5 4 [] neutralTA).confidence = 40 ∧
    (decideRecommendation 5 4 [] neutralTA).confidence ≠ 56 := by
  refine ⟨?_, by with_unfolding_all decide, by with_unfolding_all decide⟩
  rw [decideRecommendation_action]
  have h40 : (decideInit 5 4).2.1 = 40 := by with_unfolding_all decide
  rw [h40]
  norm_num

/-- C2 (amended): with accumulated scores buyScore = 5, sellScore = 4 the
score separation (1.0) is below the 1.5 minimum, so the generator takes the
no-clear-signal branch: action WAIT with the fixed confidence 40 (the
56-formula of the claim is never evaluated on this branch). -/
theorem scores_5_4_forced_wait (sm : List SummaryEntry) (ta : TechnicalAnalysis) :
    (decideRecommendation 5 4 sm ta).action = "WAIT" ∧
    (decideRecommendation 5 4 sm ta).confidence = 40 := by
  have h40 : (decideInit 5 4).2.1 = 40 := by with_unfolding_all decide
  constructor
  · rw [decideRecommendation_action, h40]
    norm_num
  · rw [decideRecommendation_confidence, h40]

/-- C10: whenever the recommendation generator returns action WAIT (any of its
WAIT paths), the returned profitTarget and riskLevel are both exactly 0. -/
theorem recommendation_wait_zero_targets (ca : CandleAnalysis)
    (ta : TechnicalAnalysis) :
    (generateProfessionalRecommendation ca ta).action = "WAIT" →
    (generateProfessionalRecommendation ca ta).profitTarget = 0 ∧
    (generateProfessionalRecommendation ca ta).riskLevel = 0 := by
  unfold generateProfessionalRecommendation
  exact decideRecommendation_wait_zeroes _ _ _ _

/-- Witness for C10 at a concrete WAIT-producing input. -/
theorem recommendation_wait_zero_targets_witness :
    (generateProfessionalRecommendation emptyCA neutralTA).action = "WAIT" ∧
    (generateProfessionalRecommendation emptyCA neutralTA).profitTarget = 0 ∧
    (generateProfessionalRecommendation emptyCA neutralTA).riskLevel = 0 :=
  ⟨by with_unfolding_all decide,
   (recommendation_wait_zero_targets emptyCA neutralTA (by with_unfolding_all decide)).1,
   (recommendation_wait_zero_targets emptyCA neutralTA (by with_unfolding_all decide)).2⟩

/-- C6 (counterexample): on a short candle sequence the quantitative-analysis
module returns `null` (an absent value), not a neutral HOLD record. -/
theorem quantitative_short_series_is_null :
    performQuantitativeAnalysis (fun q => q) [] = none := rfl

/-- C6 (amended): on short candle sequences the support/resistance,
moving-average, Donchian and MACD modules return neutral HOLD/zero-strength
records, while the quantitative-analysis module returns `null` (an absent
value that downstream consumers treat as neutral). -/
theorem indicators_short_series_neutral (cs : List Candle) (h : ℕ)
    (sqrtFn : ℚ → ℚ) :
    (cs.length < 8 → analyzeSupportResistance cs h =
      { supports := [], resistances := [], signal := "HOLD", strength := 0,
        levels := [] }) ∧
    (cs.length < 50 → analyzeMovingAverages cs =
      { signal := "HOLD", strength := 0, indicators := none }) ∧
    (cs.length < 14 → performQuantitativeAnalysis sqrtFn cs = none) ∧
    (cs.length < 20 → analyzeDonchianChannels cs =
      { signal := "HOLD", strength := 0, position := some "middle",
        allPeriods := [] }) ∧
    (cs.length < 26 → analyzeMACD cs =
      { signal := "HOLD", strength := 0, indicators := none }) := by
  refine ⟨fun h1 => ?_, fun h2 => ?_, fun h3 => ?_, fun h4 => ?_, fun h5 => ?_⟩
  · unfold analyzeSupportResistance
    rw [if_pos h1]
  · unfold analyzeMovingAverages
    rw [if_pos h2]
  · unfold performQuantitativeAnalysis
    rw [if_pos h3]
  · unfold analyzeDonchianChannels
    rw [if_pos h4]
  · unfold analyzeMACD
    rw [if_pos h5]

/-- Witness for C6 (amended) on the empty candle list. -/
theorem indicators_short_series_neutral_witness :
    ([] : List Candle).length < 8 ∧
    analyzeSupportResistance [] 0 =
      { supports := [], resistances := [], signal := "HOLD", strength := 0,
        levels := [] } ∧
    analyzeMovingAverages [] =
      { signal := "HOLD", strength := 0, indicators := none } ∧
    performQuantitativeAnalysis (fun q => q) [] = none ∧
    analyzeDonchianChannels [] =
      { signal := "HOLD", strength := 0, position := some "middle",
        allPeriods := [] } ∧
    analyzeMACD [] = { signal := "HOLD", strength := 0, indicators := none } :=
  ⟨by with_unfolding_all decide,
   (indicators_short_series_neutral [] 0 (fun q => q)).1 (by with_unfolding_all decide),
   (indicators_short_series_neutral [] 0 (fun q => q)).2.1 (by with_unfolding_all decide),
   (indicators_short_series_neutral [] 0 (fun q => q)).2.2.1 (by with_unfolding_all decide),
   (indicators_short_series_neutral [] 0 (fun q => q)).2.2.2.1 (by with_unfolding_all decide),
   (indicators_short_series_neutral [] 0 (fun q => q)).2.2.2.2 (by with_unfolding_all decide)⟩

/-- C8: `calculateRSI` returns exactly 50 with fewer candles than the period,
and exactly 100 when (with sufficient candles) the average loss over the
lookback window is 0. -/
theorem calculateRSI_spec (cs : List Candle) (period : ℕ) (hp : 0 < period) :
    (cs.length < period → calculateRSI cs period = 50) ∧
    (period < cs.length → (rsiGainsLosses cs period).2 / (period : ℚ) = 0 →
      calculateRSI cs period = 100) := by
  constructor
  · intro hlt
    unfold calculateRSI
    rw [if_pos (Nat.le_of_lt hlt)]
  · intro hgt hao
    unfold calculateRSI
    rw [if_neg (by omega)]
    simp [hao]

/-- Witness for C8: five candles give RSI 50 for period 14; fifteen strictly
ascending closes give zero average loss and RSI 100. -/
theorem calculateRSI_spec_witness :
    (0 < 14 ∧ fiveCandles.length < 14 ∧ calculateRSI fiveCandles 14 = 50) ∧
    (14 < ascendingCandles.length ∧
      (rsiGainsLosses ascendingCandles 14).2 / (14 : ℚ) = 0 ∧
      calculateRSI ascendingCandles 14 = 100) :=
  ⟨⟨by with_unfolding_all decide, by with_unfolding_all decide,
    (calculateRSI_spec fiveCandles 14 (by with_unfolding_all decide)).1 (by with_unfolding_all decide)⟩,
   ⟨by with_unfolding_all decide, by with_unfolding_all decide,
    (calculateRSI_spec ascendingCandles 14 (by with_unfolding_all decide)).2 (by with_unfolding_all decide) (by with_unfolding_all decide)⟩⟩

/-- C5 (counterexample): a two-candle sequence satisfying every bullish
engulfing condition yields NO patterns at all — the detector's guard returns
the empty list for fewer than three candles. -/
theorem bullish_engulfing_two_candles_missed :
    (engulfC0.isGreen = true ∧ engulfC1.isRed = true ∧
     engulfC0.close > engulfC1.openP ∧ engulfC0.openP < engulfC1.close ∧
     engulfC0.bodyHeight > engulfC1.bodyHeight) ∧
    detectAllCandlestickPatterns [engulfC1, engulfC0] = [] := by
  with_unfolding_all decide

/-- C5 (amended): on a chronological sequence of at least three candles whose
last candle is bullish, engulfing the preceding bearish candle, the detector's
output contains the "Bullish Engulfing" pattern with signal BUY. -/
theorem bullish_engulfing_detected (cs : List Candle) (h3 : 3 ≤ cs.length)
    (hg : (cs.getD (cs.length - 1) defCandle).isGreen = true)
    (hr : (cs.getD (cs.length - 2) defCandle).isRed = true)
    (hc1 : (cs.getD (cs.length - 1) defCandle).close >
      (cs.getD (cs.length - 2) defCandle).openP)
    (hc2 : (cs.getD (cs.length - 1) defCandle).openP <
      (cs.getD (cs.length - 2) defCandle).close)
    (hb : (cs.getD (cs.length - 1) defCandle).bodyHeight >
      (cs.getD (cs.length - 2) defCandle).bodyHeight) :
    (⟨"Bullish Engulfing", "BUY", 19/20,
      "Strong Bullish Reversal - Buyers overpower sellers"⟩ : Pattern) ∈
      detectAllCandlestickPatterns cs := by
  have hguard : ¬ (cs.length < 3) := by omega
  simp only [detectAllCandlestickPatterns]
  rw [if_neg hguard, List.mem_mergeSort]
  have hmem : (⟨"Bullish Engulfing", "BUY", 19/20,
      "Strong Bullish Reversal - Buyers overpower sellers"⟩ : Pattern) ∈
      (if (cs.getD (cs.length - 1) defCandle).isGreen ∧
          (cs.getD (cs.length - 2) defCandle).isRed ∧
          (cs.getD (cs.length - 1) defCandle).close >
            (cs.getD (cs.length - 2) defCandle).openP ∧
          (cs.getD (cs.length - 1) defCandle).openP <
            (cs.getD (cs.length - 2) defCandle).close ∧
          (cs.getD (cs.length - 1) defCandle).bodyHeight >
            (cs.getD (cs.length - 2) defCandle).bodyHeight then
        [⟨"Bullish Engulfing", "BUY", 19/20,
          "Strong Bullish Reversal - Buyers overpower sellers"⟩]
      else []) := by
    rw [if_pos ⟨hg, hr, hc1, hc2, hb⟩]
    exact List.mem_singleton_self _
  simp only [List.mem_append]
  tauto

/-- Witness for C5 (amended) on a concrete three-candle sequence. -/
theorem bullish_engulfing_detected_witness :
    3 ≤ engulfTriple.length ∧
    (⟨"Bullish Engulfing", "BUY", 19/20,
      "Strong Bullish Reversal - Buyers overpower sellers"⟩ : Pattern) ∈
      detectAllCandlestickPatterns engulfTriple :=
  ⟨by with_unfolding_all decide,
   bullish_engulfing_detected engulfTriple (by with_unfolding_all decide)
     (by with_unfolding_all decide) (by with_unfolding_all decide)
     (by with_unfolding_all decide) (by with_unfolding_all decide)
     (by with_unfolding_all decide)⟩

/-- Every fold of `donchianReduceStep` either keeps the initial accumulator or
lands on one of the per-period results. -/
theorem donchianReduceStep_fold_cases (l : List DonchianPeriodResult)
    (b : DonchianBest) :
    l.foldl donchianReduceStep b = b ∨
    ∃ r ∈ l, l.foldl donchianReduceStep b =
      ⟨r.signal, r.strength, some r.position⟩ := by
  induction l generalizing b with
  | nil => exact Or.inl rfl
  | cons r t ih =>
    rw [List.foldl_cons]
    rcases ih (donchianReduceStep b r) with h | ⟨r', hr', h⟩
    · rw [h]
      unfold donchianReduceStep
      by_cases hs : r.strength > b.strength
      · rw [if_pos hs]
        exact Or.inr ⟨r, List.mem_cons_self r t, rfl⟩
      · rw [if_neg hs]
        exact Or.inl rfl
    · exact Or.inr ⟨r', List.mem_cons_of_mem r hr', h⟩

/-- A BUY per-period Donchian result requires the last three closes to sit
above the upper threshold band. -/
theorem donchianPeriodResult_buy (cs : List Candle) (p : ℕ) (h3 : 3 ≤ cs.length)
    (h : (donchianPeriodResult cs p).signal = "BUY") :
    (cs.drop (cs.length - 3)).all
      (fun c => decide (c.close > donchianHighest cs p - donchianBreakout cs p)) =
      true := by
  unfold donchianPeriodResult at h
  split_ifs at h with h1 h2 h3' h4
  · unfold donchianUpperConfirmed at h2
    rwa [if_pos h3] at h2
  all_goals simp_all

/-- A SELL per-period Donchian result requires the last three closes to sit
below the lower threshold band. -/
theorem donchianPeriodResult_sell (cs : List Candle) (p : ℕ) (h3 : 3 ≤ cs.length)
    (h : (donchianPeriodResult cs p).signal = "SELL") :
    (cs.drop (cs.length - 3)).all
      (fun c => decide (c.close < donchianLowest cs p + donchianBreakout cs p)) =
      true := by
  unfold donchianPeriodResult at h
  split_ifs at h with h1 h2 h3' h4
  · simp_all
  · simp_all
  · unfold donchianLowerConfirmed at h4
    rwa [if_pos h3] at h4
  · simp_all
  · simp_all

/-- C7: a Donchian breakout signal (BUY or SELL) is emitted only when the last
three closes all lie beyond the breakout threshold band of the channel extreme
for one of the configured lookback periods; in particular a single-bar spike
that retraces on the next two bars cannot trigger a breakout signal. -/
theorem donchian_breakout_sustained (cs : List Candle) :
    ((analyzeDonchianChannels cs).signal = "BUY" →
      ∃ p, (p = 20 ∨ p = 50) ∧ p ≤ cs.length ∧
        (cs.drop (cs.length - 3)).all
          (fun c => decide (c.close > donchianHighest cs p - donchianBreakout cs p)) =
          true) ∧
    ((analyzeDonchianChannels cs).signal = "SELL" →
      ∃ p, (p = 20 ∨ p = 50) ∧ p ≤ cs.length ∧
        (cs.drop (cs.length - 3)).all
          (fun c => decide (c.close < donchianLowest cs p + donchianBreakout cs p)) =
          true) := by
  by_cases hlen : cs.length < 20
  · unfold analyzeDonchianChannels
    rw [if_pos hlen]
    constructor <;> intro h <;> simp at h
  · have h3 : 3 ≤ cs.length := by omega
    have e : analyzeDonchianChannels cs =
        { signal := ((([20, 50] : List ℕ).filterMap (fun period =>
              if cs.length ≥ period then some (donchianPeriodResult cs period)
              else none)).foldl donchianReduceStep ⟨"HOLD", 0, none⟩).signal,
          strength := ((([20, 50] : List ℕ).filterMap (fun period =>
              if cs.length ≥ period then some (donchianPeriodResult cs period)
              else none)).foldl donchianReduceStep ⟨"HOLD", 0, none⟩).strength,
          position := ((([20, 50] : List ℕ).filterMap (fun period =>
              if cs.length ≥ period then some (donchianPeriodResult cs period)
              else none)).foldl donchianReduceStep ⟨"HOLD", 0, none⟩).position,
          allPeriods := ([20, 50] : List ℕ).filterMap (fun period =>
              if cs.length ≥ period then some (donchianPeriodResult cs period)
              else none) } := by
      unfold analyzeDonchianChannels
      rw [if_neg hlen]
    rw [e]
    constructor <;> intro hsig
    · rcases donchianReduceStep_fold_cases (([20, 50] : List ℕ).filterMap
          (fun period => if cs.length ≥ period then
            some (donchianPeriodResult cs period) else none)) ⟨"HOLD", 0, none⟩ with
        hkeep | ⟨r, hrmem, hfold⟩
      · rw [hkeep] at hsig
        simp at hsig
      · rw [hfold] at hsig
        obtain ⟨p, hp, hpr⟩ := List.mem_filterMap.mp hrmem
        by_cases hple : cs.length ≥ p
        · rw [if_pos hple] at hpr
          have hp' : p = 20 ∨ p = 50 := by simpa using hp
          injection hpr with hpr'
          refine ⟨p, hp', hple, ?_⟩
          refine donchianPeriodResult_buy cs p h3 ?_
          rw [hpr']
          simpa using hsig
        · rw [if_neg hple] at hpr
          exact absurd hpr (by simp)
    · rcases donchianReduceStep_fold_cases (([20, 50] : List ℕ).filterMap
          (fun period => if cs.length ≥ period then
            some (donchianPeriodResult cs period) else none)) ⟨"HOLD", 0, none⟩ with
        hkeep | ⟨r, hrmem, hfold⟩
      · rw [hkeep] at hsig
        simp at hsig
      · rw [hfold] at hsig
        obtain ⟨p, hp, hpr⟩ := List.mem_filterMap.mp hrmem
        by_cases hple : cs.length ≥ p
        · rw [if_pos hple] at hpr
          have hp' : p = 20 ∨ p = 50 := by simpa using hp
          injection hpr with hpr'
          refine ⟨p, hp', hple, ?_⟩
          refine donchianPeriodResult_sell cs p h3 ?_
          rw [hpr']
          simpa using hsig
        · rw [if_neg hple] at hpr
          exact absurd hpr (by simp)

set_option maxRecDepth 10000 in
/-- Witness for C7 on twenty identical candles whose closes sit beyond the
20-period upper band: the signal is BUY and the sustained-close condition is
produced by the theorem. -/
theorem donchian_breakout_sustained_witness :
    (analyzeDonchianChannels breakoutCandles).signal = "BUY" ∧
    ∃ p, (p = 20 ∨ p = 50) ∧ p ≤ breakoutCandles.length ∧
      (breakoutCandles.drop (breakoutCandles.length - 3)).all
        (fun c => decide (c.close >
          donchianHighest breakoutCandles p - donchianBreakout breakoutCandles p)) =
        true :=
  ⟨by with_unfolding_all decide,
   (donchian_breakout_sustained breakoutCandles).1 (by with_unfolding_all decide)⟩

/-- C9: the analysis pipeline is deterministic — running extraction, pattern
detection, technical analysis and recommendation generation on identical pixel
buffers (same dimensions, same pixel contents) yields identical
recommendations; the decision logic is a pure function of the buffer (and of
the fixed square-root routine), with no randomness or wall-clock input. -/
theorem pipeline_deterministic (sqrtFn : ℚ → ℚ) (b1 b2 : PixelBuffer)
    (hw : b1.width = b2.width) (hh : b1.height = b2.height)
    (hp : ∀ x y, b1.pixel x y = b2.pixel x y) :
    runPipeline sqrtFn b1 = runPipeline sqrtFn b2 := by
  have heq : b1 = b2 := by
    cases b1 with
    | mk w1 h1 p1 =>
      cases b2 with
      | mk w2 h2 p2 =>
        simp only at hw hh hp
        subst hw
        subst hh
        have hpe : p1 = p2 := funext fun x => funext fun y => hp x y
        rw [hpe]
  rw [heq]

/-- Witness for C9: the pipeline applied twice to the same concrete buffer. -/
theorem pipeline_deterministic_witness :
    runPipeline (fun q => q) greenBuf = runPipeline (fun q => q) greenBuf :=
  pipeline_deterministic (fun q => q) greenBuf greenBuf rfl rfl
    (fun _ _ => rfl)

/-! ## Extraction-stage correctness lemmas -/

theorem chartRows_le_height (h : ℕ) : chartRows h ≤ h := by
  unfold chartRows
  omega

theorem runAllMatch_mk (buf : PixelBuffer) (s e : ℕ) (h1 : s ≤ e)
    (h2 : ∀ c, s ≤ c → c ≤ e → isCandleColumn buf c = true) :
    runAllMatch buf ⟨s, e⟩ :=
  ⟨h1, h2⟩

/-- Every run the column scan reports consists entirely of matching columns
(the JS loop only extends an open candle over matching columns). -/
theorem scanLoop_allMatch (buf : PixelBuffer) :
    ∀ (x : ℕ) (cur : Option ℕ) (acc : List CRun),
      (∀ r ∈ acc, runAllMatch buf r) →
      (∀ e, cur = some e → x ≤ e ∧
        ∀ c, x + 1 ≤ c → c ≤ e → isCandleColumn buf c = true) →
      ∀ r ∈ scanLoop buf x cur acc, runAllMatch buf r := by
  intro x
  induction x with
  | zero =>
    intro cur acc hacc hcur r hr
    cases cur with
    | none =>
      simp only [scanLoop] at hr
      exact hacc r hr
    | some e =>
      simp only [scanLoop] at hr
      by_cases hc : e - 1 ≥ 2 ∧ acc.length < 150
      · rw [if_pos hc] at hr
        rcases List.mem_append.mp hr with h | h
        · exact hacc r h
        · obtain rfl := List.mem_singleton.mp h
          obtain ⟨he, hall⟩ := hcur e rfl
          exact runAllMatch_mk buf 1 e (by omega)
            (fun c hc1 hc2 => hall c (by omega) hc2)
      · rw [if_neg hc] at hr
        exact hacc r hr
  | succ n ih =>
    intro cur acc hacc hcur r hr
    cases cur with
    | some e =>
      obtain ⟨hxe, hall⟩ := hcur e rfl
      simp only [scanLoop] at hr
      by_cases hcol : isCandleColumn buf (n + 1) = true
      · rw [if_pos hcol] at hr
        refine ih (some e) acc hacc ?_ r hr
        intro e' he'
        injection he' with h
        subst h
        refine ⟨by omega, fun c hc1 hc2 => ?_⟩
        rcases Nat.eq_or_lt_of_le hc1 with hh | hh
        · rw [← hh]
          exact hcol
        · exact hall c (by omega) hc2
      · rw [if_neg hcol] at hr
        by_cases hwd : e - (n + 2) ≥ 2
        · rw [if_pos hwd] at hr
          by_cases hbreak : acc.length + 1 ≥ 150
          · rw [if_pos hbreak] at hr
            rcases List.mem_append.mp hr with h | h
            · exact hacc r h
            · obtain rfl := List.mem_singleton.mp h
              exact runAllMatch_mk buf (n + 2) e (by omega)
                (fun c h1 h2 => hall c (by omega) h2)
          · rw [if_neg hbreak] at hr
            refine ih none (acc ++ [⟨n + 2, e⟩]) ?_ (by intro e' h; simp at h) r hr
            intro r' hr'
            rcases List.mem_append.mp hr' with h | h
            · exact hacc r' h
            · obtain rfl := List.mem_singleton.mp h
              exact runAllMatch_mk buf (n + 2) e (by omega)
                (fun c h1 h2 => hall c (by omega) h2)
        · rw [if_neg hwd] at hr
          exact ih none acc hacc (by intro e' h; simp at h) r hr
    | none =>
      simp only [scanLoop] at hr
      by_cases hcol : isCandleColumn buf (n + 1) = true
      · rw [if_pos hcol] at hr
        refine ih (some (n + 1)) acc hacc ?_ r hr
        intro e' he'
        injection he' with h
        subst h
        refine ⟨by omega, fun c hc1 hc2 => ?_⟩
        have : c = n + 1 := by omega
        subst this
        exact hcol
      · rw [if_neg hcol] at hr
        exact ih none acc hacc (by intro e' h; simp at h) r hr

theorem detectRuns_allMatch (buf : PixelBuffer) :
    ∀ r ∈ detectRuns buf, runAllMatch buf r :=
  scanLoop_allMatch buf (buf.width - 1) none []
    (by intro r h; simp at h)
    (by intro e h; simp at h)

/-- The representative (midpoint) column of a detected run matches. -/
theorem runAllMatch_mid (buf : PixelBuffer) (r : CRun) (h : runAllMatch buf r) :
    isCandleColumn buf ((r.xStart + r.xEnd + 1) / 2) = true := by
  obtain ⟨hle, hall⟩ := h
  exact hall _ (by omega) (by omega)

theorem boundaryStep_eq (buf : PixelBuffer) (midX : ℕ) (st : ℕ × ℕ) (y : ℕ) :
    boundaryStep buf midX st y =
      if isCandlePixel (buf.pixel midX y) then
        (if st.1 = buf.height then y else st.1, y)
      else st := rfl

theorem bodyStep_eq (buf : PixelBuffer) (midX : ℕ) (useGreen : Bool)
    (st : ℕ × ℕ × Bool) (y : ℕ) :
    bodyStep buf midX useGreen st y =
      if colorMatchAt buf midX useGreen y then
        ((if st.2.2 then st.1 else y), y, true)
      else st := rfl

theorem boundSpec_found (buf : PixelBuffer) (midX m a b : ℕ)
    (h1 : isCandlePixel (buf.pixel midX a) = true)
    (h2 : isCandlePixel (buf.pixel midX b) = true)
    (h3 : a ≤ b) (h4 : b < m) : boundSpec buf midX m (a, b) :=
  Or.inr ⟨h1, h2, h3, h4⟩

theorem bodySpec_found (buf : PixelBuffer) (midX : ℕ) (useGreen : Bool)
    (lo n a b : ℕ) (h1 : colorMatchAt buf midX useGreen a = true)
    (h2 : lo ≤ a) (h3 : a ≤ b) (h4 : b < lo + n) :
    bodySpec buf midX useGreen lo n (a, b, true) :=
  Or.inr ⟨h1, h2, h3, h4, rfl⟩

/-- The boundary fold satisfies its specification after any number of rows. -/
theorem boundary_fold_spec (buf : PixelBuffer) (midX : ℕ) :
    ∀ m : ℕ, m ≤ buf.height →
      boundSpec buf midX m
        ((List.range m).foldl (boundaryStep buf midX) (buf.height, 0)) := by
  intro m
  induction m with
  | zero =>
    intro _
    exact Or.inl ⟨rfl, by omega⟩
  | succ n ih =>
    intro hle
    have hn := ih (by omega)
    rw [List.range_succ, List.foldl_append, List.foldl_cons, List.foldl_nil,
      boundaryStep_eq]
    by_cases hp : isCandlePixel (buf.pixel midX n) = true
    · rw [if_pos hp]
      rcases hn with ⟨he, hnone⟩ | ⟨h1, h2, hle12, hlt⟩
      · rw [he, if_pos (show ((buf.height, 0) : ℕ × ℕ).1 = buf.height from rfl)]
        exact boundSpec_found buf midX (n + 1) n n hp hp (le_refl n) (by omega)
      · rw [if_neg (show ¬(((List.range n).foldl (boundaryStep buf midX)
            (buf.height, 0)).1 = buf.height) from by omega)]
        refine boundSpec_found buf midX (n + 1) _ n h1 hp ?_ ?_
        · omega
        · omega
    · rw [if_neg hp]
      rcases hn with ⟨he, hnone⟩ | ⟨h1, h2, hle12, hlt⟩
      · refine Or.inl ⟨he, fun y hy => ?_⟩
        rcases Nat.lt_succ_iff_lt_or_eq.mp hy with h | h
        · exact hnone y h
        · subst h
          exact Bool.eq_false_iff.mpr hp
      · exact Or.inr ⟨h1, h2, hle12, by omega⟩

/-- The body fold satisfies its specification after any number of rows. -/
theorem body_fold_spec (buf : PixelBuffer) (midX : ℕ) (useGreen : Bool) (lo : ℕ) :
    ∀ n : ℕ,
      bodySpec buf midX useGreen lo n
        ((List.range' lo n).foldl (bodyStep buf midX useGreen)
          (buf.height, 0, false)) := by
  intro n
  induction n with
  | zero =>
    exact Or.inl ⟨rfl, by simp⟩
  | succ k ih =>
    rw [List.range'_1_concat, List.foldl_append, List.foldl_cons, List.foldl_nil,
      bodyStep_eq]
    by_cases hp : colorMatchAt buf midX useGreen (lo + k) = true
    · rw [if_pos hp]
      rcases ih with ⟨he, hnone⟩ | ⟨h1, hlo1, hle1, hlt1, hflag⟩
      · rw [he, if_neg (show ¬(((buf.height, 0, false) : ℕ × ℕ × Bool).2.2 = true)
          from by simp)]
        exact bodySpec_found buf midX useGreen lo (k + 1) (lo + k) (lo + k) hp
          (Nat.le_add_right lo k) (le_refl _) (by omega)
      · rw [if_pos hflag]
        refine bodySpec_found buf midX useGreen lo (k + 1) _ (lo + k) h1 hlo1 ?_ ?_
        · omega
        · omega
    · rw [if_neg hp]
      rcases ih with ⟨he, hnone⟩ | ⟨h1, hlo1, hle1, hlt1, hflag⟩
      · refine Or.inl ⟨he, fun y hy => ?_⟩
        rw [List.range'_1_concat] at hy
        rcases List.mem_append.mp hy with h | h
        · exact hnone y h
        · obtain rfl := List.mem_singleton.mp h
          exact Bool.eq_false_iff.mpr hp
      · exact Or.inr ⟨h1, hlo1, hle1, by omega, hflag⟩

/-- Geometric bounds for a measured candle whose representative column
matches: the recorded high row is at or above the low row, the ratio
denominator is at least 1, and all three ratios lie in [0, 1]. -/
theorem measureCandle_bounds (buf : PixelBuffer) (run : CRun)
    (hmid : isCandleColumn buf ((run.xStart + run.xEnd + 1) / 2) = true) :
    (measureCandle buf run).high ≤ (measureCandle buf run).low ∧
    1 ≤ (measureCandle buf run).totalHeight ∧
    (0 ≤ (measureCandle buf run).bodyRatio ∧
      (measureCandle buf run).bodyRatio ≤ 1) ∧
    (0 ≤ (measureCandle buf run).upperWickRatio ∧
      (measureCandle buf run).upperWickRatio ≤ 1) ∧
    (0 ≤ (measureCandle buf run).lowerWickRatio ∧
      (measureCandle buf run).lowerWickRatio ≤ 1) := by
  simp only [measureCandle]
  set midX := (run.xStart + run.xEnd + 1) / 2 with hmidX
  set hl := (List.range (chartRows buf.height)).foldl (boundaryStep buf midX)
    (buf.height, 0) with hhl
  have hspec := boundary_fold_spec buf midX (chartRows buf.height)
    (chartRows_le_height buf.height)
  rw [← hhl] at hspec
  obtain ⟨y0, hy0m, hy0p⟩ : ∃ y ∈ List.range (chartRows buf.height),
      isCandlePixel (buf.pixel midX y) = true := by
    simpa [isCandleColumn] using hmid
  rcases hspec with ⟨he, hnone⟩ | ⟨hp1, hp2, hle12, hlt2⟩
  · rw [hnone y0 (List.mem_range.mp hy0m)] at hy0p
    exact absurd hy0p (by simp)
  · set span := List.range' hl.1 (hl.2 + 1 - hl.1) with hspan
    set g := span.countP (fun y => greenCandle (buf.pixel midX y)) with hgdef
    set r := span.countP (fun y => redCandle (buf.pixel midX y)) with hrdef
    set bb := span.foldl (bodyStep buf midX (decide (g > r)))
      (buf.height, 0, false) with hbbdef
    have hbody := body_fold_spec buf midX (decide (g > r)) hl.1 (hl.2 + 1 - hl.1)
    rw [← hspan, ← hbbdef] at hbody
    have hmemhigh : hl.1 ∈ span := by
      rw [hspan]
      exact List.mem_range'.mpr ⟨0, by omega, by omega⟩
    have hor : greenCandle (buf.pixel midX hl.1) = true ∨
        redCandle (buf.pixel midX hl.1) = true := by
      have h := hp1
      unfold isCandlePixel at h
      rwa [Bool.or_eq_true] at h
    have hexists : ∃ y ∈ span, colorMatchAt buf midX (decide (g > r)) y = true := by
      by_cases hgr : r < g
      · have hgpos : 0 < g := by omega
        rw [hgdef] at hgpos
        obtain ⟨y, hy, hyg⟩ := List.countP_pos_iff.mp hgpos
        refine ⟨y, hy, ?_⟩
        simp [colorMatchAt, decide_eq_true hgr, hyg]
      · have hrpos : 0 < r := by
          rcases hor with hgq | hrq
          · have hgpos : 0 < g := by
              rw [hgdef]
              exact List.countP_pos_iff.mpr ⟨hl.1, hmemhigh, hgq⟩
            omega
          · rw [hrdef]
            exact List.countP_pos_iff.mpr ⟨hl.1, hmemhigh, hrq⟩
        rw [hrdef] at hrpos
        obtain ⟨y, hy, hyr⟩ := List.countP_pos_iff.mp hrpos
        refine ⟨y, hy, ?_⟩
        simp [colorMatchAt, decide_eq_false hgr, hyr]
    rcases hbody with ⟨hbe, hbnone⟩ | ⟨hq1, hlo1, hle1, hlt1, hflag⟩
    · obtain ⟨y, hy, hyc⟩ := hexists
      rw [hbnone y hy] at hyc
      exact absurd hyc (by simp)
    · have hBL : bb.2.1 ≤ hl.2 := by omega
      have c0 : (hl.1 : ℚ) ≤ (hl.2 : ℚ) := by exact_mod_cast hle12
      have c1 : (hl.1 : ℚ) ≤ (bb.1 : ℚ) := by exact_mod_cast hlo1
      have c2 : (bb.1 : ℚ) ≤ (bb.2.1 : ℚ) := by exact_mod_cast hle1
      have c3 : (bb.2.1 : ℚ) ≤ (hl.2 : ℚ) := by exact_mod_cast hBL
      have hmax1 : (1 : ℚ) ≤ max 1 ((hl.2 : ℚ) - (hl.1 : ℚ)) := le_max_left _ _
      have hmaxpos : (0 : ℚ) < max 1 ((hl.2 : ℚ) - (hl.1 : ℚ)) := by linarith
      have hLH : (hl.2 : ℚ) - (hl.1 : ℚ) ≤ max 1 ((hl.2 : ℚ) - (hl.1 : ℚ)) :=
        le_max_right _ _
      have hmm : max 1 (max 1 ((hl.2 : ℚ) - (hl.1 : ℚ))) =
          max 1 ((hl.2 : ℚ) - (hl.1 : ℚ)) := max_eq_right hmax1
      by_cases hgb : g > r
      case pos =>
        simp only [if_pos (decide_eq_true hgb)]
        have habs : |(bb.1 : ℚ) - (bb.2.1 : ℚ)| = (bb.2.1 : ℚ) - (bb.1 : ℚ) := by
          rw [abs_sub_comm]
          exact abs_of_nonneg (by linarith)
        refine ⟨c0, hmax1, ⟨?_, ?_⟩, ?_, ?_⟩
        · exact div_nonneg (abs_nonneg _) hmaxpos.le
        · rw [habs, div_le_one hmaxpos]
          linarith
        · rw [hmm]
          exact ⟨div_nonneg (by linarith) hmaxpos.le,
            by rw [div_le_one hmaxpos]; linarith⟩
        · rw [hmm]
          exact ⟨div_nonneg (by linarith) hmaxpos.le,
            by rw [div_le_one hmaxpos]; linarith⟩
      case neg =>
        simp only [if_neg (show ¬(decide (g > r) = true) from by
          simp [decide_eq_false hgb])]
        have habs : |(bb.2.1 : ℚ) - (bb.1 : ℚ)| = (bb.2.1 : ℚ) - (bb.1 : ℚ) :=
          abs_of_nonneg (by linarith)
        refine ⟨c0, hmax1, ⟨?_, ?_⟩, ?_, ?_⟩
        · exact div_nonneg (abs_nonneg _) hmaxpos.le
        · rw [habs, div_le_one hmaxpos]
          linarith
        · rw [hmm]
          exact ⟨div_nonneg (by linarith) hmaxpos.le,
            by rw [div_le_one hmaxpos]; linarith⟩
        · rw [hmm]
          exact ⟨div_nonneg (by linarith) hmaxpos.le,
            by rw [div_le_one hmaxpos]; linarith⟩

/-- The candle list of a successful extraction is `extractValidCandles`. -/
theorem analyze_ok_candles (buf : PixelBuffer) (ca : CandleAnalysis)
    (h : analyzeProfessionalCandlesticks buf = .ok ca) :
    ca.candles = extractValidCandles buf := by
  unfold analyzeProfessionalCandlesticks at h
  by_cases h1 : (detectRuns buf).isEmpty
  · rw [if_pos h1] at h
    exact absurd h (by simp)
  · rw [if_neg h1] at h
    by_cases h2 : (extractValidCandles buf).isEmpty
    · rw [if_pos h2] at h
      exact absurd h (by simp)
    · rw [if_neg h2] at h
      injection h with h'
      rw [← h']

/-- Every extracted candle is the measurement of some detected run. -/
theorem mem_extractValidCandles (buf : PixelBuffer) (c : Candle)
    (hc : c ∈ extractValidCandles buf) :
    ∃ r ∈ detectRuns buf, c = measureCandle buf r := by
  unfold extractValidCandles at hc
  have hmem := (List.mem_filter.mp hc).1
  rw [List.mem_reverse] at hmem
  obtain ⟨r, hr, he⟩ := List.mem_map.mp hmem
  exact ⟨r, hr, he.symm⟩

/-- C3: every candle produced by the extraction stage has bodyRatio,
upperWickRatio and lowerWickRatio in [0, 1], and the ratio denominator
(`max(1, totalHeight)`, with totalHeight itself floored at 1) is at least 1,
hence never zero. -/
theorem extraction_ratio_bounds (buf : PixelBuffer) (ca : CandleAnalysis)
    (h : analyzeProfessionalCandlesticks buf = .ok ca) :
    ∀ c ∈ ca.candles,
      (0 ≤ c.bodyRatio ∧ c.bodyRatio ≤ 1) ∧
      (0 ≤ c.upperWickRatio ∧ c.upperWickRatio ≤ 1) ∧
      (0 ≤ c.lowerWickRatio ∧ c.lowerWickRatio ≤ 1) ∧
      1 ≤ c.totalHeight ∧ 1 ≤ max 1 c.totalHeight := by
  intro c hc
  rw [analyze_ok_candles buf ca h] at hc
  obtain ⟨r, hr, rfl⟩ := mem_extractValidCandles buf c hc
  have hmid := runAllMatch_mid buf r (detectRuns_allMatch buf r hr)
  obtain ⟨_, htot, hbr, hur, hlr⟩ := measureCandle_bounds buf r hmid
  exact ⟨hbr, hur, hlr, htot, le_max_left _ _⟩

/-- Witness for C3 on the concrete one-candle buffer `greenBuf`. -/
theorem extraction_ratio_bounds_witness :
    analyzeProfessionalCandlesticks greenBuf = .ok greenCA ∧
    ∀ c ∈ greenCA.candles,
      (0 ≤ c.bodyRatio ∧ c.bodyRatio ≤ 1) ∧
      (0 ≤ c.upperWickRatio ∧ c.upperWickRatio ≤ 1) ∧
      (0 ≤ c.lowerWickRatio ∧ c.lowerWickRatio ≤ 1) ∧
      1 ≤ c.totalHeight ∧ 1 ≤ max 1 c.totalHeight :=
  ⟨by with_unfolding_all rfl,
   extraction_ratio_bounds greenBuf greenCA (by with_unfolding_all rfl)⟩

/-- C4: for every candle in the sequence returned by the extraction stage, the
pixel row recorded as `high` is at or above (numerically at most) the row
recorded as `low`. -/
theorem extraction_high_le_low (buf : PixelBuffer) (ca : CandleAnalysis)
    (h : analyzeProfessionalCandlesticks buf = .ok ca) :
    ∀ c ∈ ca.candles, c.high ≤ c.low := by
  intro c hc
  rw [analyze_ok_candles buf ca h] at hc
  obtain ⟨r, hr, rfl⟩ := mem_extractValidCandles buf c hc
  have hmid := runAllMatch_mid buf r (detectRuns_allMatch buf r hr)
  exact (measureCandle_bounds buf r hmid).1

/-- Witness for C4 on the concrete one-candle buffer `greenBuf`. -/
theorem extraction_high_le_low_witness :
    analyzeProfessionalCandlesticks greenBuf = .ok greenCA ∧
    ∀ c ∈ greenCA.candles, c.high ≤ c.low :=
  ⟨by with_unfolding_all rfl,
   extraction_high_le_low greenBuf greenCA (by with_unfolding_all rfl)⟩

end KingBot
